import Mathlib

/-!
# AIDE report tool: `report_generator.go`

A shallow embedding of `main` and `searchDatabase` from `report_generator.go`,
together with the part of Go's `encoding/json` and `fmt` that the two functions
rely on, and the properties of the report run proved over that embedding.

* Go `int` is `Int` restricted by `fitsInt` at the one place where a value
  enters the program from outside (the JSON decoder).
* A response body is either bytes that are not JSON text or the text of a JSON
  value `v`; the scan that `json.Unmarshal` performs first rejects the former
  and every value nested deeper than 10000 levels.
* Calls that leave the process (OpenSearch, excelize, `createReport`,
  `populateColumn`) take their result from an `Env`, and every call and every
  line of output is recorded in a trace of `Event`s.
-/

namespace AIDEReport

/-! ## JSON values and Go errors -/

/-- A JSON document after the syntax scan. A number keeps the value of its integer
digits and the text of its fraction and exponent, which is empty for an integer
literal such as `42`. Object members are kept in document order, duplicates included. -/
inductive JSON where
  | null : JSON
  | bool (b : Bool) : JSON
  | num (digits : Int) (fracExp : String) : JSON
  | str (s : String) : JSON
  | arr (items : List JSON) : JSON
  | obj (members : List (String × JSON)) : JSON

mutual
/-- Nesting depth of a value as the scanner of `encoding/json` counts it: every
array and every object that is open at the deepest point. -/
def JSON.nesting : JSON → Nat
  | .arr items => nestingItems items + 1
  | .obj members => nestingMembers members + 1
  | _ => 0
/-- Deepest nesting among the items of an array. -/
def nestingItems : List JSON → Nat
  | [] => 0
  | v :: rest => max v.nesting (nestingItems rest)
/-- Deepest nesting among the members of an object. -/
def nestingMembers : List (String × JSON) → Nat
  | [] => 0
  | (_, v) :: rest => max v.nesting (nestingMembers rest)
end

/-- Limit of the scanner: input nested deeper is rejected (`exceeded max depth`). -/
def maxNestingDepth : Nat := 10000

/-- The bytes handed to `json.Unmarshal`: bytes that are not JSON text, or the
text of the value `v`. -/
inductive Body where
  | invalid : Body
  | json (v : JSON) : Body

/-- The kinds of JSON value named in an `UnmarshalTypeError`. -/
inductive JKind where
  | bool | number | string | array | object
  deriving DecidableEq, Repr

/-- The kinds of Go target the two response types are made of. -/
inductive GoKind where
  | int | bool | string | struct | slice
  deriving DecidableEq, Repr

/-- Go `error` values seen by the program. `external` is an error returned by a
library call, identified by its text. -/
inductive GoError where
  | external (text : String)
  | jsonSyntax
  | unmarshalType (value : JKind) (target : GoKind)
  deriving DecidableEq, Repr

/-- Range of Go's `int` (64 bits). -/
def fitsInt (v : Int) : Bool :=
  decide (-(9223372036854775808 : Int) ≤ v) && decide (v ≤ 9223372036854775807)

/-- A Go slice: the elements below `len`, and the elements of the backing array
between `len` and `cap` that an earlier truncation left behind. -/
structure GoSlice (α : Type) where
  elems : List α
  spare : List α
  deriving DecidableEq, Repr

/-- The nil slice. -/
def GoSlice.nil {α : Type} : GoSlice α := ⟨[], []⟩

/-! ## The response types declared in `main` -/

/-- Element type of `Buckets`. -/
structure Bucket where
  Key : String
  DocCount : Int
  deriving DecidableEq, Repr

/-- Anonymous struct tagged `json:"2"`. -/
structure TermsFilter where
  Buckets : GoSlice Bucket
  deriving DecidableEq, Repr

/-- Anonymous struct tagged `json:"aggregations"` inside `queryResponse`. -/
structure TermsAggregations where
  Filter : TermsFilter
  deriving DecidableEq, Repr

/-- Go type `queryResponse`. -/
structure queryResponse where
  Took : Int
  TimedOut : Bool
  Aggregations : TermsAggregations
  deriving DecidableEq, Repr

/-- Anonymous struct tagged `json:"1"`. -/
structure CountField where
  Value : Int
  deriving DecidableEq, Repr

/-- Anonymous struct tagged `json:"aggregations"` inside `CountResponse`. -/
structure CountAggregations where
  Field1 : CountField
  deriving DecidableEq, Repr

/-- Go type `CountResponse`. -/
structure CountResponse where
  Took : Int
  TimedOut : Bool
  Aggregations : CountAggregations
  deriving DecidableEq, Repr

/-- Zero value of `Bucket`. -/
def Bucket.zero : Bucket := ⟨"", 0⟩

/-- Zero value of `queryResponse`, the state of `var asnResult queryResponse`. -/
def queryResponse.zero : queryResponse := ⟨0, false, ⟨⟨GoSlice.nil⟩⟩⟩

/-- Zero value of `CountResponse`, the state of `var asnCountResult CountResponse`. -/
def CountResponse.zero : CountResponse := ⟨0, false, ⟨⟨0⟩⟩⟩

/-! ## `encoding/json`: decoding into the response types -/

/-- Case folding of one rune as `encoding/json` applies it to object keys. Only
the runes whose fold class holds an ASCII letter are moved; the field names of
the response types are ASCII, so matching against them is not affected by the rest. -/
def foldRune (c : Char) : Char :=
  if 'a'.toNat ≤ c.toNat ∧ c.toNat ≤ 'z'.toNat then Char.ofNat (c.toNat - 32)
  else if c.toNat = 0x17F then 'S'
  else if c.toNat = 0x212A then 'K'
  else c

/-- Folded form of a key. -/
def foldName (s : String) : List Char := s.data.map foldRune

/-- A struct field as the decoder sees it: its JSON name and the store into it. -/
structure Field (σ : Type) where
  name : String
  store : JSON → σ → Except GoError σ

/-- Field lookup of `decodeState.object`: the exact name first, then the folded name. -/
def findField {σ : Type} (fs : List (Field σ)) (key : String) : Option (Field σ) :=
  match fs.find? (fun f => f.name == key) with
  | some f => some f
  | none => fs.find? (fun f => foldName f.name == foldName key)

/-- Members of an object are decoded in document order into the fields they name;
a member that names no field is skipped. The first type error is the one returned. -/
def decodeMembers {σ : Type} (fs : List (Field σ)) :
    List (String × JSON) → σ → Except GoError σ
  | [], s => .ok s
  | (k, v) :: rest, s =>
    match findField fs k with
    | none => decodeMembers fs rest s
    | some f =>
      match f.store v s with
      | .ok s1 => decodeMembers fs rest s1
      | .error e => .error e

/-- Decoding into a struct: `null` leaves it alone, an object fills its fields,
anything else is a type error. -/
def decodeStruct {σ : Type} (fs : List (Field σ)) : JSON → σ → Except GoError σ
  | .null, s => .ok s
  | .obj members, s => decodeMembers fs members s
  | .bool _, _ => .error (.unmarshalType .bool .struct)
  | .num _ _, _ => .error (.unmarshalType .number .struct)
  | .str _, _ => .error (.unmarshalType .string .struct)
  | .arr _, _ => .error (.unmarshalType .array .struct)

/-- Decoding into an `int`: the literal has to pass `strconv.ParseInt(s, 10, 64)`. -/
def decodeInt : JSON → Int → Except GoError Int
  | .null, old => .ok old
  | .num digits fracExp, _ =>
    if fracExp = "" ∧ fitsInt digits = true then .ok digits
    else .error (.unmarshalType .number .int)
  | .bool _, _ => .error (.unmarshalType .bool .int)
  | .str _, _ => .error (.unmarshalType .string .int)
  | .arr _, _ => .error (.unmarshalType .array .int)
  | .obj _, _ => .error (.unmarshalType .object .int)

/-- Decoding into a `bool`. -/
def decodeBool : JSON → Bool → Except GoError Bool
  | .null, old => .ok old
  | .bool b, _ => .ok b
  | .num _ _, _ => .error (.unmarshalType .number .bool)
  | .str _, _ => .error (.unmarshalType .string .bool)
  | .arr _, _ => .error (.unmarshalType .array .bool)
  | .obj _, _ => .error (.unmarshalType .object .bool)

/-- Decoding into a `string`. -/
def decodeString : JSON → String → Except GoError String
  | .null, old => .ok old
  | .str s, _ => .ok s
  | .bool _, _ => .error (.unmarshalType .bool .string)
  | .num _ _, _ => .error (.unmarshalType .number .string)
  | .arr _, _ => .error (.unmarshalType .array .string)
  | .obj _, _ => .error (.unmarshalType .object .string)

/-- Fields of a bucket. -/
def bucketFields : List (Field Bucket) :=
  [ ⟨"key", fun v b => (decodeString v b.Key).map (fun k => { b with Key := k })⟩,
    ⟨"doc_count", fun v b => (decodeInt v b.DocCount).map (fun c => { b with DocCount := c })⟩ ]

/-- The loop of `decodeState.array` over a slice of buckets: item `i` is decoded
into element `i` of the backing array, which is the zero value where the array
has not been written yet. Returns the decoded elements and the rest of the array. -/
def decodeItems : List JSON → List Bucket → Except GoError (List Bucket × List Bucket)
  | [], array => .ok ([], array)
  | item :: rest, array =>
    match decodeStruct bucketFields item (array.headD Bucket.zero) with
    | .error e => .error e
    | .ok b =>
      match decodeItems rest array.tail with
      | .error e => .error e
      | .ok (done, left) => .ok (b :: done, left)

/-- Decoding into `Buckets`: `null` gives the nil slice, an empty array a fresh
empty slice, an array its elements with the slice truncated after the last one. -/
def decodeBuckets : JSON → GoSlice Bucket → Except GoError (GoSlice Bucket)
  | .null, _ => .ok GoSlice.nil
  | .arr items, s =>
    match decodeItems items (s.elems ++ s.spare) with
    | .error e => .error e
    | .ok (done, left) => if items.isEmpty then .ok ⟨[], []⟩ else .ok ⟨done, left⟩
  | .bool _, _ => .error (.unmarshalType .bool .slice)
  | .num _ _, _ => .error (.unmarshalType .number .slice)
  | .str _, _ => .error (.unmarshalType .string .slice)
  | .obj _, _ => .error (.unmarshalType .object .slice)

/-- Field `Buckets`, tagged `json:"buckets"`. -/
def bucketsField : Field TermsFilter :=
  ⟨"buckets", fun v f => (decodeBuckets v f.Buckets).map (fun s => { f with Buckets := s })⟩

/-- Fields of the struct tagged `"2"`. -/
def filterFields : List (Field TermsFilter) := [bucketsField]

/-- Field `Filter`, tagged `json:"2"`. -/
def filterField : Field TermsAggregations :=
  ⟨"2", fun v a => (decodeStruct filterFields v a.Filter).map (fun f => { a with Filter := f })⟩

/-- Fields of the `aggregations` struct of `queryResponse`. -/
def termsAggregationsFields : List (Field TermsAggregations) := [filterField]

/-- Field `Aggregations` of `queryResponse`, tagged `json:"aggregations"`. -/
def termsAggregationsField : Field queryResponse :=
  ⟨"aggregations", fun v r =>
    (decodeStruct termsAggregationsFields v r.Aggregations).map
      (fun a => { r with Aggregations := a })⟩

/-- Fields of `queryResponse`. -/
def queryResponseFields : List (Field queryResponse) :=
  [ ⟨"took", fun v r => (decodeInt v r.Took).map (fun t => { r with Took := t })⟩,
    ⟨"timed_out", fun v r => (decodeBool v r.TimedOut).map (fun t => { r with TimedOut := t })⟩,
    termsAggregationsField ]

/-- Field `Value`, tagged `json:"value"`. -/
def valueField : Field CountField :=
  ⟨"value", fun v f => (decodeInt v f.Value).map (fun c => { f with Value := c })⟩

/-- Fields of the struct tagged `"1"`. -/
def countFieldFields : List (Field CountField) := [valueField]

/-- Field `Field1`, tagged `json:"1"`. -/
def field1Field : Field CountAggregations :=
  ⟨"1", fun v a => (decodeStruct countFieldFields v a.Field1).map (fun f => { a with Field1 := f })⟩

/-- Fields of the `aggregations` struct of `CountResponse`. -/
def countAggregationsFields : List (Field CountAggregations) := [field1Field]

/-- Field `Aggregations` of `CountResponse`, tagged `json:"aggregations"`. -/
def countAggregationsField : Field CountResponse :=
  ⟨"aggregations", fun v r =>
    (decodeStruct countAggregationsFields v r.Aggregations).map
      (fun a => { r with Aggregations := a })⟩

/-- Fields of `CountResponse`. -/
def countResponseFields : List (Field CountResponse) :=
  [ ⟨"took", fun v r => (decodeInt v r.Took).map (fun t => { r with Took := t })⟩,
    ⟨"timed_out", fun v r => (decodeBool v r.TimedOut).map (fun t => { r with TimedOut := t })⟩,
    countAggregationsField ]

/-- The call `json.Unmarshal(body, &result)` with `var result queryResponse`. The
whole input is scanned first: bytes that are not JSON, and JSON nested deeper
than `maxNestingDepth` anywhere, also under a member that names no field, are a
syntax error. -/
def unmarshalQueryResponse : Body → Except GoError queryResponse
  | .invalid => .error .jsonSyntax
  | .json v =>
    if v.nesting ≤ maxNestingDepth then decodeStruct queryResponseFields v queryResponse.zero
    else .error .jsonSyntax

/-- The call `json.Unmarshal(body, &result)` with `var result CountResponse`, with
the same scan of the whole input first. -/
def unmarshalCountResponse : Body → Except GoError CountResponse
  | .invalid => .error .jsonSyntax
  | .json v =>
    if v.nesting ≤ maxNestingDepth then decodeStruct countResponseFields v CountResponse.zero
    else .error .jsonSyntax

/-! ## Tabulation, `fmt.Sprintf` and the table range -/

/-- The loop `for _, bucket := range buckets { names = append(names, bucket.Key);
counts = append(counts, bucket.DocCount) }`, starting from two nil slices. -/
def tabulate (buckets : List Bucket) : List String × List Int :=
  buckets.foldl (fun acc bucket => (acc.1 ++ [bucket.Key], acc.2 ++ [bucket.DocCount])) ([], [])

/-- Expansion of a format that holds one `%d` verb: the text around the verb is
copied and the verb is replaced by the decimal form of the argument. -/
def sprintfChars : List Char → Int → List Char
  | [], _ => []
  | '%' :: 'd' :: rest, n => (toString n).data ++ rest
  | c :: rest, n => c :: sprintfChars rest n

/-- The call `fmt.Sprintf(format, n)` for the one-verb formats of `main`. -/
def Sprintf (format : String) (n : Int) : String := ⟨sprintfChars format.data n⟩

/-- Row of the table header; data rows follow it. -/
def headerRow : Nat := 3

/-- Last row of a table with `length` data rows: `length+3`. -/
def tableEndRow (length : Nat) : Nat := length + 3

/-- The call `fmt.Sprintf("A3:B%d", length+3)`. -/
def tableRange (length : Nat) : String := Sprintf "A3:B%d" (Int.ofNat (tableEndRow length))

/-! ## The query catalog -/

/-- Address of the OpenSearch endpoint. -/
def endpoint : String := "https://os.gcaaide.org/"

/-- Index patterns searched by every query. -/
def searchIndex : List String := ["gca-honeyfarm-1-*", "gca-honeyfarm-2-*"]

/-- Body of the query for attack counts by ASN (terms aggregation `2`). -/
def asnContent : String :=
  "\x7b\"aggs\":\x7b\"2\":\x7b\"terms\":\x7b\"field\":\"geoip.as_org.keyword\",\"order\":\x7b\"_count\":\"desc\"\x7d,\"size\":5000\x7d\x7d\x7d,\"size\":0,\"stored_fields\":[\"*\"],\"script_fields\":\x7b\x7d,\"docvalue_fields\":[\x7b\"field\":\"@timestamp\",\"format\":\"date_time\"\x7d,\x7b\"field\":\"endTime\",\"format\":\"date_time\"\x7d,\x7b\"field\":\"startTime\",\"format\":\"date_time\"\x7d],\"_source\":\x7b\"excludes\":[]\x7d,\"query\":\x7b\"bool\":\x7b\"must\":[\x7b\"query_string\":\x7b\"query\":\"_exists_:loggedin OR _exists_:credentials OR _exists_:commands OR _exists_:unknownCommands OR _exists_:urls OR _exists_:hashes\",\"analyze_wildcard\":true,\"time_zone\":\"Europe/London\"\x7d\x7d,\x7b\"range\":\x7b\"@timestamp\":\x7b\"gte\":\"now-12h\",\"lte\":\"now\",\"format\":\"strict_date_optional_time\"\x7d\x7d\x7d],\"filter\":[],\"should\":[],\"must_not\":[]\x7d\x7d\x7d"

/-- Body of the query for attack counts by country (terms aggregation `2`). -/
def countryContent : String :=
  "\x7b\"aggs\":\x7b\"2\":\x7b\"terms\":\x7b\"field\":\"geoip.country_name.keyword\",\"order\":\x7b\"_count\":\"desc\"\x7d,\"size\":2000\x7d\x7d\x7d,\"size\":0,\"stored_fields\":[\"*\"],\"script_fields\":\x7b\x7d,\"docvalue_fields\":[\x7b\"field\":\"@timestamp\",\"format\":\"date_time\"\x7d,\x7b\"field\":\"endTime\",\"format\":\"date_time\"\x7d,\x7b\"field\":\"startTime\",\"format\":\"date_time\"\x7d],\"_source\":\x7b\"excludes\":[]\x7d,\"query\":\x7b\"bool\":\x7b\"must\":[\x7b\"query_string\":\x7b\"query\":\"_exists_:loggedin OR _exists_:credentials OR _exists_:commands OR _exists_:unknownCommands OR _exists_:urls OR _exists_:hashes\",\"analyze_wildcard\":true,\"time_zone\":\"Europe/London\"\x7d\x7d],\"filter\":[\x7b\"range\":\x7b\"@timestamp\":\x7b\"gte\":\"now-12h\",\"lte\":\"now\",\"format\":\"strict_date_optional_time\"\x7d\x7d\x7d],\"should\":[],\"must_not\":[]\x7d\x7d\x7d"

/-- Body of the query for the unique peer ASN count (cardinality aggregation `1`). -/
def uniqueASNsContent : String :=
  "\x7b\"aggs\":\x7b\"1\":\x7b\"cardinality\":\x7b\"field\":\"geoip.as_org.keyword\"\x7d\x7d\x7d,\"size\":0,\"stored_fields\":[\"*\"],\"script_fields\":\x7b\x7d,\"docvalue_fields\":[\x7b\"field\":\"@timestamp\",\"format\":\"date_time\"\x7d,\x7b\"field\":\"endTime\",\"format\":\"date_time\"\x7d,\x7b\"field\":\"startTime\",\"format\":\"date_time\"\x7d],\"_source\":\x7b\"excludes\":[]\x7d,\"query\":\x7b\"bool\":\x7b\"must\":[],\"filter\":[\x7b\"match_all\":\x7b\x7d\x7d,\x7b\"range\":\x7b\"@timestamp\":\x7b\"gte\":\"now-12h\",\"lte\":\"now\",\"format\":\"strict_date_optional_time\"\x7d\x7d\x7d],\"should\":[],\"must_not\":[]\x7d\x7d\x7d"

/-- Body of the query for the unique peer country count (cardinality aggregation `1`). -/
def uniqueCountriesContent : String :=
  "\x7b\"aggs\":\x7b\"1\":\x7b\"cardinality\":\x7b\"field\":\"geoip.country_name.keyword\"\x7d\x7d\x7d,\"size\":0,\"stored_fields\":[\"*\"],\"script_fields\":\x7b\x7d,\"docvalue_fields\":[\x7b\"field\":\"@timestamp\",\"format\":\"date_time\"\x7d,\x7b\"field\":\"endTime\",\"format\":\"date_time\"\x7d,\x7b\"field\":\"startTime\",\"format\":\"date_time\"\x7d],\"_source\":\x7b\"excludes\":[]\x7d,\"query\":\x7b\"bool\":\x7b\"must\":[],\"filter\":[\x7b\"match_all\":\x7b\x7d\x7d,\x7b\"range\":\x7b\"@timestamp\":\x7b\"gte\":\"now-12h\",\"lte\":\"now\",\"format\":\"strict_date_optional_time\"\x7d\x7d\x7d],\"should\":[],\"must_not\":[]\x7d\x7d\x7d"

/-! ## The run: events, environment, `searchDatabase` and `main` -/

/-- The values passed to `populateColumn`: a column of names or a column of counts. -/
inductive ColumnValues where
  | strings (values : List String)
  | ints (values : List Int)
  deriving DecidableEq, Repr

/-- What a run does that can be seen from outside, in order. `fatalf` is
`log.Fatalf`, after which the process has exited; `printf` is `log.Printf`. -/
inductive Event where
  | println (line : String)
  | fatalf (format : String) (err : GoError)
  | printf (format : String) (err : GoError)
  | newClient (address username password : String)
  | searchDo (index : List String) (body : String)
  | readAll
  | closeBody
  | createReport (identity asnTableRange countryTableRange : String)
  | populateColumn (values : ColumnValues) (column : String) (startRow : Nat)
      (sheet filename : String)
  | openFile (filename : String)
  | setCellValue (sheet cell value : String)
  | save
  deriving DecidableEq, Repr

/-- Result of `search.Do` followed by `io.ReadAll`: the transport failed, or the
backend answered with an HTTP status and a body that could or could not be read. -/
inductive SearchOutcome where
  | transportError (err : GoError)
  | response (status : Nat) (read : Except GoError Body)

/-- Everything a run takes from outside the process. -/
structure Env where
  user : String
  password : String
  newClient : Option GoError
  asnSearch : SearchOutcome
  countrySearch : SearchOutcome
  uniqueASNsSearch : SearchOutcome
  uniqueCountriesSearch : SearchOutcome
  createReport : Except GoError String
  populateASNNames : Option GoError
  populateASNCounts : Option GoError
  populateCountryNames : Option GoError
  populateCountryCounts : Option GoError
  openFile : Option GoError
  setUniqueASNs : Option GoError
  setASNAttacks : Option GoError
  setUniqueCountries : Option GoError
  setCountryAttacks : Option GoError
  save : Option GoError

/-- A piece of the run: the events it produced and its value, `none` once the
process has exited through `log.Fatalf`. -/
structure Run (α : Type) where
  trace : List Event
  result : Option α

/-- Sequencing: nothing runs after an exit. -/
def Run.bind {α β : Type} (m : Run α) (f : α → Run β) : Run β :=
  match m.result with
  | none => ⟨m.trace, none⟩
  | some a => ⟨m.trace ++ (f a).trace, (f a).result⟩

instance : Monad Run where
  pure a := ⟨[], some a⟩
  bind := Run.bind

/-- One event. -/
def emit (e : Event) : Run Unit := ⟨[e], some ()⟩

/-- The call `log.Fatalf(format, err)`. -/
def fatal {α : Type} (format : String) (err : GoError) : Run α := ⟨[.fatalf format err], none⟩

/-- Function `searchDatabase`. -/
def searchDatabase (content : String) (outcome : SearchOutcome) :
    Run (Body × Option GoError) := do
  emit (.println "Querying database...")
  emit (.searchDo searchIndex content)
  match outcome with
  | .transportError err => fatal "failed to search document: %v" err
  | .response _ read =>
    emit .readAll
    match read with
    | .error err => fatal "failed to read response body: %v" err
    | .ok body =>
      emit (.println "Response received.")
      emit .closeBody
      pure (body, none)

/-- The values `main` holds after the tabulation loops. -/
structure Tabulated where
  asNames : List String
  asCounts : List Int
  countryNames : List String
  countryCounts : List Int
  uniqueASNsCount : Int
  uniqueCountriesCount : Int
  deriving DecidableEq, Repr

/-- One `searchDatabase` call of `main` with its error check. -/
def search (content : String) (outcome : SearchOutcome) : Run Body := do
  let (body, err) ← searchDatabase content outcome
  match err with
  | some e => fatal "failed to search database: %v" e
  | none => pure body

/-- One `json.Unmarshal` call of `main` with its error check. -/
def unmarshalOrExit {α : Type} (decoded : Except GoError α) : Run α :=
  match decoded with
  | .error e => fatal "cannot unmarshal JSON: %v" e
  | .ok r => pure r

/-- First part of `main`: client, the four queries with their decoding, and the
tabulation loops. -/
def collect (env : Env) : Run Tabulated := do
  emit (.newClient endpoint env.user env.password)
  match env.newClient with
  | some err => fatal "failed to search document: %v" err
  | none => pure ()
  let asnBody ← search asnContent env.asnSearch
  let asnResult ← unmarshalOrExit (unmarshalQueryResponse asnBody)
  let countryBody ← search countryContent env.countrySearch
  let countryResult ← unmarshalOrExit (unmarshalQueryResponse countryBody)
  let uniqueASNsBody ← search uniqueASNsContent env.uniqueASNsSearch
  let asnCountResult ← unmarshalOrExit (unmarshalCountResponse uniqueASNsBody)
  let uniqueCountriesBody ← search uniqueCountriesContent env.uniqueCountriesSearch
  let countryCountResult ← unmarshalOrExit (unmarshalCountResponse uniqueCountriesBody)
  let (asNames, asCounts) := tabulate asnResult.Aggregations.Filter.Buckets.elems
  let (countryNames, countryCounts) := tabulate countryResult.Aggregations.Filter.Buckets.elems
  pure ⟨asNames, asCounts, countryNames, countryCounts,
    asnCountResult.Aggregations.Field1.Value, countryCountResult.Aggregations.Field1.Value⟩

/-- One `populateColumn` call of `main`: an error is logged and the run goes on. -/
def populate (values : ColumnValues) (column sheet filename logFormat : String)
    (outcome : Option GoError) : Run Unit := do
  emit (.populateColumn values column 4 sheet filename)
  match outcome with
  | some err => emit (.printf logFormat err)
  | none => pure ()

/-- Second part of `main`: the table ranges, the report, its columns, the summary
cells and the save. -/
def report (env : Env) (t : Tabulated) : Run Unit := do
  let asnLength := t.asCounts.length
  let countryLength := t.countryCounts.length
  let asnTableRange := tableRange asnLength
  let countryTableRange := tableRange countryLength
  emit (.println "")
  emit (.createReport env.user asnTableRange countryTableRange)
  let filename ← (match env.createReport with
    | .error err => fatal "failed to create report: %v" err
    | .ok name => pure name : Run String)
  populate (.strings t.asNames) "A" "By ASN" filename
    "failed to populate ASN column: %v" env.populateASNNames
  populate (.ints t.asCounts) "B" "By ASN" filename
    "failed to populate ASN count column: %v" env.populateASNCounts
  populate (.strings t.countryNames) "A" "By Country of Origin" filename
    "failed to populate country name column: %v" env.populateCountryNames
  populate (.ints t.countryCounts) "B" "By Country of Origin" filename
    "failed to populate country count column: %v" env.populateCountryCounts
  let uniqueASNsString :=
    Sprintf "In the past 12 hours, AIDE observed %d unique peer ASNs." t.uniqueASNsCount
  let uniqueCountriesString :=
    Sprintf "In the past 12 hours, AIDE observed %d unique peer countries." t.uniqueCountriesCount
  let asnAttacksString :=
    Sprintf "Of those, %d were present in attacker data." (Int.ofNat asnLength)
  let countryAttacksString :=
    Sprintf "Of those, %d were the country of origin for attacks." (Int.ofNat countryLength)
  emit (.openFile filename)
  match env.openFile with
  | some err => fatal "failed to read excel file: %v" err
  | none => pure ()
  emit (.setCellValue "By ASN" "D3" uniqueASNsString)
  emit (.setCellValue "By ASN" "D4" asnAttacksString)
  emit (.setCellValue "By Country of Origin" "D3" uniqueCountriesString)
  emit (.setCellValue "By Country of Origin" "D4" countryAttacksString)
  emit .save
  match env.save with
  | some err => fatal "failed to save excel file: %v" err
  | none => pure ()
  emit (.println "File saved.")

/-- Function `main`. -/
def main (env : Env) : Run Unit := collect env >>= report env

/-! ## Response shapes used in the statements -/

/-- A member of a response object that decodes without touching `Aggregations`:
it names no field, or it names `took` and holds an `int`, or it names
`timed_out` and holds a `bool` (`null` is accepted for both), or it names
`aggregations` and holds `null` or an object in which no member names the
aggregation id (`noId` tells so for a key). -/
def envelopeMember {σ : Type} (fs : List (Field σ)) (noId : String → Bool)
    (m : String × JSON) : Bool :=
  match findField fs m.1 with
  | none => true
  | some f =>
    (f.name == "took" && (decodeInt m.2 0).isOk) ||
    (f.name == "timed_out" && (decodeBool m.2 false).isOk) ||
    (f.name == "aggregations" &&
      (match m.2 with
        | .null => true
        | .obj inner => inner.all (fun im => noId im.1)
        | _ => false))

/-- Envelope members of a terms response: nothing in them reaches `aggregations."2"`. -/
def termsEnvelope (m : String × JSON) : Bool :=
  envelopeMember queryResponseFields (fun k => (findField termsAggregationsFields k).isNone) m

/-- Envelope members of a cardinality response: nothing in them reaches `aggregations."1"`. -/
def countEnvelope (m : String × JSON) : Bool :=
  envelopeMember countResponseFields (fun k => (findField countAggregationsFields k).isNone) m

/-- The JSON object of one bucket: `key` and `doc_count`, the count written as
an integer literal. -/
def bucketObject (b : Bucket) : JSON :=
  .obj [("key", .str b.Key), ("doc_count", .num b.DocCount "")]

/-- A response whose `aggregations."2".buckets` is the array of the buckets `bs`,
with further members around it at each of the three levels. -/
def termsResponse (pre post apre apost fpre fpost : List (String × JSON))
    (bs : List Bucket) : JSON :=
  .obj (pre ++ ("aggregations",
    .obj (apre ++ ("2",
      .obj (fpre ++ ("buckets", .arr (bs.map bucketObject)) :: fpost)) :: apost)) :: post)

/-- A response whose `aggregations."1".value` is the integer literal `v`, with
further members around `aggregations` at the top level. -/
def countResponse (pre post : List (String × JSON)) (v : Int) : JSON :=
  .obj (pre ++ ("aggregations", .obj [("1", .obj [("value", .num v "")])]) :: post)

/-- The value `null` inside `n` arrays, one in the other. -/
def nest : Nat → JSON
  | 0 => .null
  | n + 1 => .arr [nest n]

/-- The two buckets of the decoding example. -/
def exampleBuckets : List Bucket := [⟨"AS1", 10⟩, ⟨"AS2", 3⟩]

/-- Top-level members of a search response that come before `aggregations`. -/
def exampleEnvelope : List (String × JSON) :=
  [("took", .num 12 ""), ("timed_out", .bool false),
   ("hits", .obj [("max_score", .null), ("hits", .arr [])])]

/-- Members of a terms aggregation that come before `buckets`. -/
def exampleTermsExtras : List (String × JSON) :=
  [("doc_count_error_upper_bound", .num 0 ""), ("sum_other_doc_count", .num 0 "")]

/-! ## Searching a text -/

/-- Whether `text` begins with `pattern`. -/
def beginsWith : List Char → List Char → Bool
  | [], _ => true
  | _ :: _, [] => false
  | p :: ps, c :: cs => p == c && beginsWith ps cs

/-- Whether `pattern` occurs in `text`. -/
def occursIn (pattern : List Char) : List Char → Bool
  | [] => pattern.isEmpty
  | c :: cs => beginsWith pattern (c :: cs) || occursIn pattern cs

/-- Whether the query body `body` holds the text `pattern`. -/
def containsText (body pattern : String) : Bool := occursIn pattern.data body.data

/-- The clause that restricts `@timestamp` to the window from `now-12h` to `now`. -/
def timeWindowClause : String :=
  "\x7b\"range\":\x7b\"@timestamp\":\x7b\"gte\":\"now-12h\",\"lte\":\"now\",\"format\":\"strict_date_optional_time\"\x7d\x7d\x7d"

/-- The clause that asks for one of the six attack-indicator fields to exist. -/
def attackIndicatorClause : String :=
  "\x7b\"query_string\":\x7b\"query\":\"_exists_:loggedin OR _exists_:credentials OR _exists_:commands OR _exists_:unknownCommands OR _exists_:urls OR _exists_:hashes\",\"analyze_wildcard\":true,\"time_zone\":\"Europe/London\"\x7d\x7d"

/-! ## The query bodies as JSON values -/

/-- Hexadecimal digit of a number below 16. -/
def hexDigit (n : Nat) : Char :=
  if n < 10 then Char.ofNat (48 + n) else Char.ofNat (87 + n)

/-- One character of a JSON string: the quote, the backslash and the control
characters are escaped. -/
def escapeChar (c : Char) : List Char :=
  if c.toNat = 34 then [Char.ofNat 92, Char.ofNat 34]
  else if c.toNat = 92 then [Char.ofNat 92, Char.ofNat 92]
  else if c.toNat < 32 then
    [Char.ofNat 92, 'u', '0', '0', hexDigit (c.toNat / 16), hexDigit (c.toNat % 16)]
  else [c]

/-- A string as JSON text. -/
def quoteString (s : String) : String :=
  ⟨Char.ofNat 34 :: ((s.data.map escapeChar).flatten ++ [Char.ofNat 34])⟩

mutual
/-- Compact JSON text of a value: no white space, members in order. -/
def JSON.render : JSON → String
  | .null => "null"
  | .bool b => if b then "true" else "false"
  | .num digits fracExp => toString digits ++ fracExp
  | .str s => quoteString s
  | .arr items => "[" ++ renderItems items ++ "]"
  | .obj members => "\x7b" ++ renderMembers members ++ "\x7d"
/-- Items of an array, separated by commas. -/
def renderItems : List JSON → String
  | [] => ""
  | v :: rest => v.render ++ (if rest.isEmpty then "" else ",") ++ renderItems rest
/-- Members of an object, separated by commas. -/
def renderMembers : List (String × JSON) → String
  | [] => ""
  | (k, v) :: rest =>
    quoteString k ++ ":" ++ v.render ++ (if rest.isEmpty then "" else ",")
      ++ renderMembers rest
end

/-- The member of an object with the given key. -/
def JSON.member (key : String) : JSON → Option JSON
  | .obj members => (members.find? (fun m => m.1 == key)).map (fun m => m.2)
  | _ => none

/-- The value reached from `v` by following the keys in order. -/
def JSON.path : List String → JSON → Option JSON
  | [], v => some v
  | key :: rest, v =>
    match v.member key with
    | some w => JSON.path rest w
    | none => none

/-- The six attack-indicator fields. -/
def attackIndicatorFields : List String :=
  ["loggedin", "credentials", "commands", "unknownCommands", "urls", "hashes"]

/-- The query string that asks for one of the attack-indicator fields to exist. -/
def attackIndicatorQuery : String :=
  " OR ".intercalate (attackIndicatorFields.map (fun f => "_exists_:" ++ f))

/-- The clause `query_string` with the existence predicate. -/
def attackIndicators : JSON :=
  .obj [("query_string", .obj [("query", .str attackIndicatorQuery),
    ("analyze_wildcard", .bool true), ("time_zone", .str "Europe/London")])]

/-- The clause `range` on `@timestamp`. -/
def timeWindow : JSON :=
  .obj [("range", .obj [("@timestamp", .obj [("gte", .str "now-12h"), ("lte", .str "now"),
    ("format", .str "strict_date_optional_time")])])]

/-- The clause `match_all`. -/
def matchAll : JSON := .obj [("match_all", .obj [])]

/-- A `bool` query with the given `must` and `filter` clauses and nothing under
`should` and `must_not`. -/
def boolQuery (must filter : List JSON) : JSON :=
  .obj [("bool", .obj [("must", .arr must), ("filter", .arr filter), ("should", .arr []),
    ("must_not", .arr [])])]

/-- A terms aggregation on `field`, by descending count, with at most `size` buckets. -/
def termsAggregation (field : String) (size : Int) : JSON :=
  .obj [("terms", .obj [("field", .str field), ("order", .obj [("_count", .str "desc")]),
    ("size", .num size "")])]

/-- A cardinality aggregation on `field`. -/
def cardinalityAggregation (field : String) : JSON :=
  .obj [("cardinality", .obj [("field", .str field)])]

/-- One entry of `docvalue_fields`. -/
def dateField (name : String) : JSON :=
  .obj [("field", .str name), ("format", .str "date_time")]

/-- A search body with one aggregation, no hits, and the given query. -/
def searchBody (id : String) (aggregation query : JSON) : JSON :=
  .obj [("aggs", .obj [(id, aggregation)]), ("size", .num 0 ""),
    ("stored_fields", .arr [.str "*"]), ("script_fields", .obj []),
    ("docvalue_fields", .arr [dateField "@timestamp", dateField "endTime",
      dateField "startTime"]),
    ("_source", .obj [("excludes", .arr [])]), ("query", query)]

/-- The JSON value written in `asnContent`. -/
def asnQuery : JSON :=
  searchBody "2" (termsAggregation "geoip.as_org.keyword" 5000)
    (boolQuery [attackIndicators, timeWindow] [])

/-- The JSON value written in `countryContent`. -/
def countryQuery : JSON :=
  searchBody "2" (termsAggregation "geoip.country_name.keyword" 2000)
    (boolQuery [attackIndicators] [timeWindow])

/-- The JSON value written in `uniqueASNsContent`. -/
def uniqueASNsQuery : JSON :=
  searchBody "1" (cardinalityAggregation "geoip.as_org.keyword")
    (boolQuery [] [matchAll, timeWindow])

/-- The JSON value written in `uniqueCountriesContent`. -/
def uniqueCountriesQuery : JSON :=
  searchBody "1" (cardinalityAggregation "geoip.country_name.keyword")
    (boolQuery [] [matchAll, timeWindow])

/-! ## Reading a trace -/

/-- The log messages of a trace, in order: format and error of every `log.Fatalf`
and `log.Printf`. -/
def logged : List Event → List (String × GoError)
  | [] => []
  | .fatalf format err :: rest => (format, err) :: logged rest
  | .printf format err :: rest => (format, err) :: logged rest
  | _ :: rest => logged rest

/-- The events of a trace other than log messages, in order. -/
def steps : List Event → List Event
  | [] => []
  | .fatalf _ _ :: rest => steps rest
  | .printf _ _ :: rest => steps rest
  | e :: rest => e :: steps rest

/-- The cell writes of a trace that go to `sheet`, in order. -/
def cellWrites (sheet : String) : List Event → List Event
  | [] => []
  | .setCellValue s cell value :: rest =>
    if s = sheet then .setCellValue s cell value :: cellWrites sheet rest
    else cellWrites sheet rest
  | _ :: rest => cellWrites sheet rest

/-! ## The log a run is expected to leave -/

/-- The first entry that holds a message. -/
def firstFailure : List (Option (String × GoError)) → Option (String × GoError)
  | [] => none
  | some m :: _ => some m
  | none :: rest => firstFailure rest

/-- Message of a search that failed in transport or while its body was read. -/
def searchFailure : SearchOutcome → Option (String × GoError)
  | .transportError err => some ("failed to search document: %v", err)
  | .response _ (.error err) => some ("failed to read response body: %v", err)
  | .response _ (.ok _) => none

/-- Message of a search whose body was read and then failed to decode. -/
def decodeFailure {α : Type} (decode : Body → Except GoError α) :
    SearchOutcome → Option (String × GoError)
  | .response _ (.ok body) =>
    match decode body with
    | .error err => some ("cannot unmarshal JSON: %v", err)
    | .ok _ => none
  | _ => none

/-- Message of the first failure among client creation, the four searches and
the four decodes, taken in program order. -/
def collectFailure (env : Env) : Option (String × GoError) :=
  firstFailure
    [ env.newClient.map (fun err => ("failed to search document: %v", err)),
      searchFailure env.asnSearch, decodeFailure unmarshalQueryResponse env.asnSearch,
      searchFailure env.countrySearch, decodeFailure unmarshalQueryResponse env.countrySearch,
      searchFailure env.uniqueASNsSearch,
      decodeFailure unmarshalCountResponse env.uniqueASNsSearch,
      searchFailure env.uniqueCountriesSearch,
      decodeFailure unmarshalCountResponse env.uniqueCountriesSearch ]

/-- One message for a column population that returned an error. -/
def populateMessage (format : String) (outcome : Option GoError) : List (String × GoError) :=
  match outcome with
  | some err => [(format, err)]
  | none => []

/-- Messages of the report part: a failed creation alone; otherwise one message
per failed column population, then the failure of reopening or, after that, of
saving. The results of the four summary-cell writes do not occur. -/
def reportLog (env : Env) : List (String × GoError) :=
  match env.createReport with
  | .error err => [("failed to create report: %v", err)]
  | .ok _ =>
    populateMessage "failed to populate ASN column: %v" env.populateASNNames ++
    populateMessage "failed to populate ASN count column: %v" env.populateASNCounts ++
    populateMessage "failed to populate country name column: %v" env.populateCountryNames ++
    populateMessage "failed to populate country count column: %v" env.populateCountryCounts ++
    (firstFailure
      [ env.openFile.map (fun err => ("failed to read excel file: %v", err)),
        env.save.map (fun err => ("failed to save excel file: %v", err)) ]).toList

/-- Messages of a whole run. -/
def expectedLog (env : Env) : List (String × GoError) :=
  match collectFailure env with
  | some m => [m]
  | none => reportLog env

/-- The formats that occur in `expectedLog`, one per kind of operation. -/
def logFormats : List String :=
  [ "failed to search document: %v", "failed to read response body: %v",
    "cannot unmarshal JSON: %v", "failed to create report: %v",
    "failed to populate ASN column: %v", "failed to populate ASN count column: %v",
    "failed to populate country name column: %v",
    "failed to populate country count column: %v",
    "failed to read excel file: %v", "failed to save excel file: %v" ]

/-! ## Sample runs -/

/-- A backend answer with status 200 and the JSON body `v`. -/
def okResponse (v : JSON) : SearchOutcome := .response 200 (.ok (.json v))

/-- Five ASN buckets. -/
def exampleASNBuckets : List Bucket :=
  [⟨"AS-A", 90⟩, ⟨"AS-B", 70⟩, ⟨"AS-C", 40⟩, ⟨"AS-D", 40⟩, ⟨"AS-E", 1⟩]

/-- Three country buckets. -/
def exampleCountryBuckets : List Bucket :=
  [⟨"Iceland", 120⟩, ⟨"Chile", 100⟩, ⟨"Fiji", 21⟩]

/-- A run in which every call succeeds: 5 ASN buckets, 3 country buckets, and the
unique counts 50 and 20. -/
def exampleEnv : Env where
  user := "analyst"
  password := "secret"
  newClient := none
  asnSearch :=
    okResponse (termsResponse exampleEnvelope [] [] [] exampleTermsExtras [] exampleASNBuckets)
  countrySearch :=
    okResponse (termsResponse exampleEnvelope [] [] [] exampleTermsExtras [] exampleCountryBuckets)
  uniqueASNsSearch := okResponse (countResponse exampleEnvelope [] 50)
  uniqueCountriesSearch := okResponse (countResponse exampleEnvelope [] 20)
  createReport := .ok "AIDE-report.xlsx"
  populateASNNames := none
  populateASNCounts := none
  populateCountryNames := none
  populateCountryCounts := none
  openFile := none
  setUniqueASNs := none
  setASNAttacks := none
  setUniqueCountries := none
  setCountryAttacks := none
  save := none

/-- What `main` holds after tabulation in the run `exampleEnv`. -/
def exampleTabulated : Tabulated :=
  ⟨["AS-A", "AS-B", "AS-C", "AS-D", "AS-E"], [90, 70, 40, 40, 1],
   ["Iceland", "Chile", "Fiji"], [120, 100, 21], 50, 20⟩

/-- The body of a backend error answer. -/
def backendErrorBody : JSON :=
  .obj [("error", .obj [("type", .str "search_phase_execution_exception"),
                        ("reason", .str "all shards failed")]),
        ("status", .num 503 "")]

/-- Every search is answered with status 200 and a body that has `took`,
`timed_out` and `hits` but no `aggregations`. -/
def missingAggregationsEnv : Env :=
  { exampleEnv with
    asnSearch := okResponse (.obj exampleEnvelope)
    countrySearch := okResponse (.obj exampleEnvelope)
    uniqueASNsSearch := okResponse (.obj exampleEnvelope)
    uniqueCountriesSearch := okResponse (.obj exampleEnvelope) }

/-- Every search is answered by a backend error: status 503 and an error body. -/
def backendErrorEnv : Env :=
  { exampleEnv with
    asnSearch := .response 503 (.ok (.json backendErrorBody))
    countrySearch := .response 503 (.ok (.json backendErrorBody))
    uniqueASNsSearch := .response 503 (.ok (.json backendErrorBody))
    uniqueCountriesSearch := .response 503 (.ok (.json backendErrorBody)) }

/-- The report is created and all columns are populated, but reopening the file fails. -/
def reopenFailsEnv : Env :=
  { exampleEnv with openFile := some (.external "open AIDE-report.xlsx: no such file") }

/-- All four column populations return an error. -/
def populateFailsEnv : Env :=
  { exampleEnv with
    populateASNNames := some (.external "sheet By ASN does not exist")
    populateASNCounts := some (.external "sheet By ASN does not exist")
    populateCountryNames := some (.external "sheet By Country of Origin does not exist")
    populateCountryCounts := some (.external "sheet By Country of Origin does not exist") }

/-- All four summary-cell writes return an error. -/
def cellWriteFailsEnv : Env :=
  { exampleEnv with
    setUniqueASNs := some (.external "sheet By ASN does not exist")
    setASNAttacks := some (.external "sheet By ASN does not exist")
    setUniqueCountries := some (.external "sheet By Country of Origin does not exist")
    setCountryAttacks := some (.external "sheet By Country of Origin does not exist") }

/-- The body of the ASN query is not JSON. -/
def asnDecodeFailsEnv : Env :=
  { exampleEnv with asnSearch := .response 200 (.ok .invalid) }

/-- The body of the country query is not JSON. -/
def countryDecodeFailsEnv : Env :=
  { exampleEnv with countrySearch := .response 200 (.ok .invalid) }

/-! # Properties -/

/-! ## Tabulation -/

theorem tabulate_foldl (buckets : List Bucket) (names : List String) (counts : List Int) :
    buckets.foldl (fun acc bucket => (acc.1 ++ [bucket.Key], acc.2 ++ [bucket.DocCount]))
      (names, counts)
      = (names ++ buckets.map Bucket.Key, counts ++ buckets.map Bucket.DocCount) := by
  induction buckets generalizing names counts with
  | nil => simp
  | cons b rest ih => simp [List.foldl_cons, ih]

theorem tabulate_eq_map (buckets : List Bucket) :
    tabulate buckets = (buckets.map Bucket.Key, buckets.map Bucket.DocCount) := by
  simp [tabulate, tabulate_foldl]

/-! ## Formatting -/

theorem Sprintf_tableRange (n : Int) : Sprintf "A3:B%d" n = "A3:B" ++ toString n := by
  apply String.ext
  simp [Sprintf, sprintfChars]

/-- C2: for every bucket count `B` the table range is `"A3:B"` followed by the
decimal form of `B+3`; its end row lies `B` rows below header row 3 and is never
above it; 5, 3 and 0 buckets give `"A3:B8"`, `"A3:B6"` and `"A3:B3"`. -/
theorem tableRange_formula (B : Nat) :
    tableRange B = "A3:B" ++ toString (B + 3) ∧
    tableRange B = "A" ++ toString headerRow ++ ":B" ++ toString (tableEndRow B) ∧
    tableEndRow B - headerRow = B ∧
    headerRow ≤ tableEndRow B ∧
    tableRange 5 = "A3:B8" ∧ tableRange 3 = "A3:B6" ∧ tableRange 0 = "A3:B3" := by
  refine ⟨?_, ?_, by simp [tableEndRow, headerRow], by simp [tableEndRow, headerRow],
    by decide, by decide, by decide⟩
  · rw [tableRange, Sprintf_tableRange]
    rfl
  · rw [tableRange, Sprintf_tableRange]
    rfl

/-! ## Decoding: members that name no field, and members in sequence -/

theorem decodeMembers_append {σ : Type} (fs : List (Field σ)) (a b : List (String × JSON))
    (s : σ) :
    decodeMembers fs (a ++ b) s = (decodeMembers fs a s).bind (decodeMembers fs b) := by
  induction a generalizing s with
  | nil => rfl
  | cons m rest ih =>
    obtain ⟨k, v⟩ := m
    cases h1 : findField fs k with
    | none =>
      simp only [List.cons_append, decodeMembers, h1]
      exact ih s
    | some f =>
      cases h2 : f.store v s with
      | error e =>
        simp only [List.cons_append, decodeMembers, h1, h2]
        rfl
      | ok s1 =>
        simp only [List.cons_append, decodeMembers, h1, h2]
        exact ih s1

theorem decodeMembers_unnamed {σ : Type} (fs : List (Field σ)) (a : List (String × JSON))
    (s : σ) (h : ∀ m ∈ a, (findField fs m.1).isNone = true) :
    decodeMembers fs a s = .ok s := by
  induction a with
  | nil => rfl
  | cons m rest ih =>
    obtain ⟨k, v⟩ := m
    have hk : findField fs k = none := by
      have := h (k, v) (List.mem_cons_self _ _)
      simpa using this
    simp only [decodeMembers, hk]
    exact ih (fun m hm => h m (List.mem_cons_of_mem _ hm))

theorem decodeMembers_named {σ : Type} (fs : List (Field σ)) (a b : List (String × JSON))
    (k : String) (v : JSON) (f : Field σ) (s : σ)
    (ha : ∀ m ∈ a, (findField fs m.1).isNone = true)
    (hb : ∀ m ∈ b, (findField fs m.1).isNone = true)
    (hk : findField fs k = some f) :
    decodeMembers fs (a ++ (k, v) :: b) s = f.store v s := by
  rw [decodeMembers_append, decodeMembers_unnamed fs a s ha]
  cases h2 : f.store v s with
  | error e => simp only [Except.bind, decodeMembers, hk, h2]
  | ok s1 =>
    simp only [Except.bind, decodeMembers, hk, h2]
    exact decodeMembers_unnamed fs b s1 hb

theorem findField_mem {σ : Type} (fs : List (Field σ)) (k : String) (f : Field σ)
    (h : findField fs k = some f) : f ∈ fs := by
  unfold findField at h
  split at h
  · rename_i g hg
    cases h
    exact List.mem_of_find?_eq_some hg
  · exact List.mem_of_find?_eq_some h

/-! ## Decoding: the envelope of a response -/

theorem decodeInt_of_isOk (v : JSON) (a b : Int) (h : (decodeInt v a).isOk = true) :
    ∃ t, decodeInt v b = .ok t := by
  cases v with
  | null => exact ⟨b, rfl⟩
  | num d fe =>
    by_cases hc : fe = "" ∧ fitsInt d = true
    · exact ⟨d, by simp [decodeInt, hc]⟩
    · simp [decodeInt, hc, Except.isOk, Except.toBool] at h
  | bool _ => simp [decodeInt, Except.isOk, Except.toBool] at h
  | str _ => simp [decodeInt, Except.isOk, Except.toBool] at h
  | arr _ => simp [decodeInt, Except.isOk, Except.toBool] at h
  | obj _ => simp [decodeInt, Except.isOk, Except.toBool] at h

theorem decodeBool_of_isOk (v : JSON) (a b : Bool) (h : (decodeBool v a).isOk = true) :
    ∃ t, decodeBool v b = .ok t := by
  cases v with
  | null => exact ⟨b, rfl⟩
  | bool x => exact ⟨x, rfl⟩
  | num _ _ => simp [decodeBool, Except.isOk, Except.toBool] at h
  | str _ => simp [decodeBool, Except.isOk, Except.toBool] at h
  | arr _ => simp [decodeBool, Except.isOk, Except.toBool] at h
  | obj _ => simp [decodeBool, Except.isOk, Except.toBool] at h

theorem queryResponse_envelope (members : List (String × JSON)) (r : queryResponse)
    (h : ∀ m ∈ members, termsEnvelope m = true) :
    ∃ t b, decodeMembers queryResponseFields members r = .ok ⟨t, b, r.Aggregations⟩ := by
  induction members generalizing r with
  | nil => exact ⟨r.Took, r.TimedOut, rfl⟩
  | cons m rest ih =>
    obtain ⟨k, v⟩ := m
    have hm := h (k, v) (List.mem_cons_self _ _)
    have hrest : ∀ m ∈ rest, termsEnvelope m = true :=
      fun m hm => h m (List.mem_cons_of_mem _ hm)
    cases h1 : findField queryResponseFields k with
    | none =>
      simp only [decodeMembers, h1]
      exact ih r hrest
    | some f =>
      have hf := findField_mem _ _ _ h1
      simp only [termsEnvelope, envelopeMember, h1] at hm
      simp only [queryResponseFields, List.mem_cons, List.mem_singleton, List.not_mem_nil,
        or_false] at hf
      rcases hf with hf | hf | hf
      · subst hf
        simp at hm
        obtain ⟨t, ht⟩ := decodeInt_of_isOk v 0 r.Took hm
        simp only [decodeMembers, h1, ht, Except.map]
        exact ih _ hrest
      · subst hf
        simp at hm
        obtain ⟨t, ht⟩ := decodeBool_of_isOk v false r.TimedOut hm
        simp only [decodeMembers, h1, ht, Except.map]
        exact ih _ hrest
      · subst hf
        simp [termsAggregationsField] at hm
        cases v with
        | null =>
          simp only [decodeMembers, h1, termsAggregationsField, decodeStruct, Except.map]
          exact ih _ hrest
        | obj inner =>
          simp at hm
          have hin : decodeMembers termsAggregationsFields inner r.Aggregations
              = .ok r.Aggregations :=
            decodeMembers_unnamed _ _ _ (fun im him => by
              have := hm im.1 im.2 him
              simpa using this)
          simp only [decodeMembers, h1, termsAggregationsField, countAggregationsField,
            decodeStruct, hin, Except.map]
          exact ih _ hrest
        | bool _ => simp at hm
        | num _ _ => simp at hm
        | str _ => simp at hm
        | arr _ => simp at hm

theorem countResponse_envelope (members : List (String × JSON)) (r : CountResponse)
    (h : ∀ m ∈ members, countEnvelope m = true) :
    ∃ t b, decodeMembers countResponseFields members r = .ok ⟨t, b, r.Aggregations⟩ := by
  induction members generalizing r with
  | nil => exact ⟨r.Took, r.TimedOut, rfl⟩
  | cons m rest ih =>
    obtain ⟨k, v⟩ := m
    have hm := h (k, v) (List.mem_cons_self _ _)
    have hrest : ∀ m ∈ rest, countEnvelope m = true :=
      fun m hm => h m (List.mem_cons_of_mem _ hm)
    cases h1 : findField countResponseFields k with
    | none =>
      simp only [decodeMembers, h1]
      exact ih r hrest
    | some f =>
      have hf := findField_mem _ _ _ h1
      simp only [countEnvelope, envelopeMember, h1] at hm
      simp only [countResponseFields, List.mem_cons, List.mem_singleton, List.not_mem_nil,
        or_false] at hf
      rcases hf with hf | hf | hf
      · subst hf
        simp at hm
        obtain ⟨t, ht⟩ := decodeInt_of_isOk v 0 r.Took hm
        simp only [decodeMembers, h1, ht, Except.map]
        exact ih _ hrest
      · subst hf
        simp at hm
        obtain ⟨t, ht⟩ := decodeBool_of_isOk v false r.TimedOut hm
        simp only [decodeMembers, h1, ht, Except.map]
        exact ih _ hrest
      · subst hf
        simp [countAggregationsField] at hm
        cases v with
        | null =>
          simp only [decodeMembers, h1, countAggregationsField, decodeStruct, Except.map]
          exact ih _ hrest
        | obj inner =>
          simp at hm
          have hin : decodeMembers countAggregationsFields inner r.Aggregations
              = .ok r.Aggregations :=
            decodeMembers_unnamed _ _ _ (fun im him => by
              have := hm im.1 im.2 him
              simpa using this)
          simp only [decodeMembers, h1, termsAggregationsField, countAggregationsField,
            decodeStruct, hin, Except.map]
          exact ih _ hrest
        | bool _ => simp at hm
        | num _ _ => simp at hm
        | str _ => simp at hm
        | arr _ => simp at hm

/-! ## Decoding: buckets and the aggregation members -/

theorem findField_buckets : findField filterFields "buckets" = some bucketsField := by
  simp [findField, filterFields, bucketsField]

theorem findField_filter : findField termsAggregationsFields "2" = some filterField := by
  simp [findField, termsAggregationsFields, filterField]

theorem findField_termsAggregations :
    findField queryResponseFields "aggregations" = some termsAggregationsField := by
  simp [findField, queryResponseFields, termsAggregationsField]

theorem findField_value : findField countFieldFields "value" = some valueField := by
  simp [findField, countFieldFields, valueField]

theorem findField_field1 : findField countAggregationsFields "1" = some field1Field := by
  simp [findField, countAggregationsFields, field1Field]

theorem findField_countAggregations :
    findField countResponseFields "aggregations" = some countAggregationsField := by
  simp [findField, countResponseFields, countAggregationsField]

theorem decode_bucketObject (b old : Bucket) (h : fitsInt b.DocCount = true) :
    decodeStruct bucketFields (bucketObject b) old = .ok b := by
  simp [decodeStruct, bucketObject, decodeMembers, findField, bucketFields, decodeString,
    decodeInt, h, Except.map]

theorem decodeItems_bucketObjects (bs array : List Bucket)
    (h : ∀ b ∈ bs, fitsInt b.DocCount = true) :
    decodeItems (bs.map bucketObject) array = .ok (bs, array.drop bs.length) := by
  induction bs generalizing array with
  | nil => simp [decodeItems]
  | cons b rest ih =>
    have hb := h b (List.mem_cons_self _ _)
    have hrest : ∀ x ∈ rest, fitsInt x.DocCount = true :=
      fun x hx => h x (List.mem_cons_of_mem _ hx)
    simp only [List.map_cons, decodeItems, decode_bucketObject b _ hb, ih array.tail hrest]
    simp

theorem decodeBuckets_bucketObjects (bs : List Bucket) (s : GoSlice Bucket)
    (h : ∀ b ∈ bs, fitsInt b.DocCount = true) :
    ∃ spare, decodeBuckets (.arr (bs.map bucketObject)) s = .ok ⟨bs, spare⟩ := by
  simp only [decodeBuckets, decodeItems_bucketObjects bs _ h]
  cases bs with
  | nil => exact ⟨[], by simp⟩
  | cons b rest => exact ⟨(s.elems ++ s.spare).drop (b :: rest).length, by simp⟩

theorem nest_nesting (n : Nat) : (nest n).nesting = n := by
  induction n with
  | zero => simp [nest, JSON.nesting]
  | succ k ih => simp [nest, JSON.nesting, nestingItems, ih]

theorem nesting_obj_cons (k : String) (v : JSON) (rest : List (String × JSON)) :
    v.nesting + 1 ≤ (JSON.obj ((k, v) :: rest)).nesting := by
  show v.nesting + 1 ≤ max v.nesting (nestingMembers rest) + 1
  exact Nat.succ_le_succ (le_max_left _ _)

theorem terms_decode (pre post apre apost fpre fpost : List (String × JSON))
    (bs : List Bucket)
    (hdepth : (termsResponse pre post apre apost fpre fpost bs).nesting ≤ maxNestingDepth)
    (hpre : ∀ m ∈ pre, termsEnvelope m = true)
    (hpost : ∀ m ∈ post, termsEnvelope m = true)
    (hapre : ∀ m ∈ apre, (findField termsAggregationsFields m.1).isNone = true)
    (hapost : ∀ m ∈ apost, (findField termsAggregationsFields m.1).isNone = true)
    (hfpre : ∀ m ∈ fpre, (findField filterFields m.1).isNone = true)
    (hfpost : ∀ m ∈ fpost, (findField filterFields m.1).isNone = true)
    (hbs : ∀ b ∈ bs, fitsInt b.DocCount = true) :
    ∃ t b spare,
      unmarshalQueryResponse (.json (termsResponse pre post apre apost fpre fpost bs))
        = .ok ⟨t, b, ⟨⟨⟨bs, spare⟩⟩⟩⟩ := by
  obtain ⟨t1, b1, h1⟩ := queryResponse_envelope pre queryResponse.zero hpre
  obtain ⟨spare, h2⟩ :=
    decodeBuckets_bucketObjects bs queryResponse.zero.Aggregations.Filter.Buckets hbs
  obtain ⟨t3, b3, h3⟩ :=
    queryResponse_envelope post ⟨t1, b1, ⟨⟨⟨bs, spare⟩⟩⟩⟩ hpost
  refine ⟨t3, b3, spare, ?_⟩
  have hf : decodeStruct filterFields
      (.obj (fpre ++ ("buckets", .arr (bs.map bucketObject)) :: fpost))
      queryResponse.zero.Aggregations.Filter = .ok ⟨⟨bs, spare⟩⟩ := by
    simp only [decodeStruct]
    rw [decodeMembers_named _ _ _ _ _ _ _ hfpre hfpost findField_buckets]
    simp only [bucketsField, h2, Except.map]
  have ha : decodeStruct termsAggregationsFields
      (.obj (apre ++ ("2", .obj (fpre ++ ("buckets", .arr (bs.map bucketObject)) :: fpost))
        :: apost))
      queryResponse.zero.Aggregations = .ok ⟨⟨⟨bs, spare⟩⟩⟩ := by
    simp only [decodeStruct]
    rw [decodeMembers_named _ _ _ _ _ _ _ hapre hapost findField_filter]
    simp only [filterField]
    rw [hf]
    rfl
  have hu : unmarshalQueryResponse (.json (termsResponse pre post apre apost fpre fpost bs))
      = decodeStruct queryResponseFields (termsResponse pre post apre apost fpre fpost bs)
          queryResponse.zero := by
    simp only [unmarshalQueryResponse, if_pos hdepth]
  rw [hu]
  simp only [termsResponse, decodeStruct]
  rw [decodeMembers_append, h1]
  simp only [Except.bind, decodeMembers, findField_termsAggregations, termsAggregationsField]
  rw [ha]
  simp only [Except.map]
  exact h3

/-! ## Decoding: the claims -/

/-- C4 (amended): for every response whose `aggregations."2".buckets` is the array
of objects `{key: k_i, doc_count: c_i}` with every `c_i` an integer literal in the
range of Go's `int`, whose other members are left alone by the decoder or are a
well-typed `took` or `timed_out`, and which is nested no deeper than the 10000
levels the scanner accepts, decoding as `queryResponse` succeeds and tabulation
yields `names = [k_0..]` and `counts = [c_0..]` in array order; the buckets
`AS1`/10, `AS2`/3 give `["AS1","AS2"]` and `[10,3]`. -/
theorem terms_decode_then_tabulate (pre post apre apost fpre fpost : List (String × JSON))
    (bs : List Bucket)
    (hdepth : (termsResponse pre post apre apost fpre fpost bs).nesting ≤ maxNestingDepth)
    (hpre : ∀ m ∈ pre, termsEnvelope m = true)
    (hpost : ∀ m ∈ post, termsEnvelope m = true)
    (hapre : ∀ m ∈ apre, (findField termsAggregationsFields m.1).isNone = true)
    (hapost : ∀ m ∈ apost, (findField termsAggregationsFields m.1).isNone = true)
    (hfpre : ∀ m ∈ fpre, (findField filterFields m.1).isNone = true)
    (hfpost : ∀ m ∈ fpost, (findField filterFields m.1).isNone = true)
    (hbs : ∀ b ∈ bs, fitsInt b.DocCount = true) :
    (unmarshalQueryResponse (.json (termsResponse pre post apre apost fpre fpost bs))).map
        (fun r => tabulate r.Aggregations.Filter.Buckets.elems)
      = .ok (bs.map Bucket.Key, bs.map Bucket.DocCount) ∧
    (unmarshalQueryResponse (.json (termsResponse [] [] [] [] [] [] exampleBuckets))).map
        (fun r => tabulate r.Aggregations.Filter.Buckets.elems)
      = .ok (["AS1", "AS2"], [10, 3]) := by
  constructor
  · obtain ⟨t, b, spare, h⟩ :=
      terms_decode pre post apre apost fpre fpost bs hdepth hpre hpost hapre hapost hfpre
        hfpost hbs
    rw [h]
    simp [Except.map, tabulate_eq_map]
  · obtain ⟨t, b, spare, h⟩ :=
      terms_decode [] [] [] [] [] [] exampleBuckets (by decide) (by simp) (by simp) (by simp)
        (by simp) (by simp) (by simp) (by decide)
    rw [h]
    simp [Except.map, tabulate_eq_map, exampleBuckets]

/-- C4, an instance: a response with `took`, `timed_out`, `hits` and the two
bookkeeping members of a terms aggregation around the example buckets. -/
theorem terms_decode_then_tabulate_witness :
    (unmarshalQueryResponse
        (.json (termsResponse exampleEnvelope [] [] [] exampleTermsExtras [] exampleBuckets))).map
        (fun r => tabulate r.Aggregations.Filter.Buckets.elems)
      = .ok (exampleBuckets.map Bucket.Key, exampleBuckets.map Bucket.DocCount) :=
  (terms_decode_then_tabulate exampleEnvelope [] [] [] exampleTermsExtras [] exampleBuckets
    (by decide) (by decide) (by decide) (by decide) (by decide) (by decide) (by decide)
    (by decide)).1

/-- C4 as stated fails: a bucket whose `doc_count` is `2^63` does not fit Go's `int`,
a response whose `took` is a string is ill-typed, and a response that carries a
member nested 10001 levels deep beside the buckets is rejected by the scanner; in
all three cases decoding returns an error, the run exits, and no names or counts
are produced. -/
theorem terms_decode_counterexample :
    unmarshalQueryResponse
        (.json (termsResponse [] [] [] [] [] [] [⟨"AS1", 9223372036854775808⟩]))
      = .error (.unmarshalType .number .int) ∧
    unmarshalQueryResponse
        (.json (termsResponse [("took", .str "5ms")] [] [] [] [] [] exampleBuckets))
      = .error (.unmarshalType .string .int) ∧
    unmarshalQueryResponse
        (.json (termsResponse [("hits", nest 10001)] [] [] [] [] [] exampleBuckets))
      = .error .jsonSyntax ∧
    (unmarshalOrExit (unmarshalQueryResponse
        (.json (termsResponse [] [] [] [] [] [] [⟨"AS1", 9223372036854775808⟩])))).result
      = none := by
  refine ⟨rfl, rfl, ?_, by decide⟩
  have hd : ¬ (termsResponse [("hits", nest 10001)] [] [] [] [] [] exampleBuckets).nesting
      ≤ maxNestingDepth := by
    have h : (nest 10001).nesting + 1
        ≤ (termsResponse [("hits", nest 10001)] [] [] [] [] [] exampleBuckets).nesting :=
      nesting_obj_cons _ _ _
    rw [nest_nesting] at h
    simp only [maxNestingDepth]
    omega
  simp only [unmarshalQueryResponse, if_neg hd]

/-- C5 (amended): for every integer `v` in the range of Go's `int`, decoding a
response of the shape `{"aggregations":{"1":{"value": v}}}` as `CountResponse`
succeeds and yields `Aggregations.Field1.Value = v`; for the value 7 the result
is 7. -/
theorem count_decode_value (v : Int) (hv : fitsInt v = true) :
    unmarshalCountResponse (.json (countResponse [] [] v)) = .ok ⟨0, false, ⟨⟨v⟩⟩⟩ ∧
    (unmarshalCountResponse (.json (countResponse [] [] v))).map
        (fun r => r.Aggregations.Field1.Value) = .ok v ∧
    (unmarshalCountResponse (.json (countResponse [] [] 7))).map
        (fun r => r.Aggregations.Field1.Value) = .ok 7 := by
  have hd : (countResponse [] [] v).nesting ≤ maxNestingDepth := by
    simp [countResponse, JSON.nesting, nestingMembers, maxNestingDepth]
  have h : unmarshalCountResponse (.json (countResponse [] [] v)) = .ok ⟨0, false, ⟨⟨v⟩⟩⟩ := by
    simp only [unmarshalCountResponse, if_pos hd]
    simp [countResponse, decodeStruct, decodeMembers,
      findField_countAggregations, countAggregationsField, findField_field1, field1Field,
      findField_value, valueField, decodeInt, hv, Except.map, CountResponse.zero]
  refine ⟨h, ?_, rfl⟩
  rw [h]
  rfl

/-- C5, an instance: the value 50. -/
theorem count_decode_value_witness :
    unmarshalCountResponse (.json (countResponse [] [] 50)) = .ok ⟨0, false, ⟨⟨50⟩⟩⟩ :=
  (count_decode_value 50 (by decide)).1

/-- C5 as stated fails: the integer `2^63` is outside Go's `int`, and decoding the
response `{"aggregations":{"1":{"value": 9223372036854775808}}}` returns a type
error instead of the value. -/
theorem count_decode_counterexample :
    unmarshalCountResponse (.json (countResponse [] [] 9223372036854775808))
      = .error (.unmarshalType .number .int) ∧
    (unmarshalOrExit (unmarshalCountResponse
        (.json (countResponse [] [] 9223372036854775808)))).result = none := by
  refine ⟨rfl, by decide⟩

/-- C3 (amended): a response object without an `aggregations` member, or with one
that lacks the aggregation id the decoded type looks for, is not a decode failure.
When the object is nested no deeper than the 10000 levels the scanner accepts and
its `took` and `timed_out` members, if any, are well-typed, decoding as
`queryResponse` succeeds with the nil bucket list, decoding as `CountResponse`
succeeds with the value 0, and the run goes on with these zero values. Bytes that
are not JSON, and an `aggregations` member of the wrong type, are a decode failure
that ends the run. -/
theorem missing_aggregations_decodes_to_zero_value (members : List (String × JSON))
    (hdepth : (JSON.obj members).nesting ≤ maxNestingDepth) :
    ((∀ m ∈ members, termsEnvelope m = true) →
      (∃ t b, unmarshalQueryResponse (.json (.obj members)) = .ok ⟨t, b, ⟨⟨GoSlice.nil⟩⟩⟩) ∧
      (unmarshalOrExit (unmarshalQueryResponse (.json (.obj members)))).result.map
        (fun r => tabulate r.Aggregations.Filter.Buckets.elems) = some ([], [])) ∧
    ((∀ m ∈ members, countEnvelope m = true) →
      (∃ t b, unmarshalCountResponse (.json (.obj members)) = .ok ⟨t, b, ⟨⟨0⟩⟩⟩) ∧
      (unmarshalOrExit (unmarshalCountResponse (.json (.obj members)))).result.map
        (fun r => r.Aggregations.Field1.Value) = some 0) ∧
    unmarshalOrExit (unmarshalQueryResponse .invalid)
      = ⟨[.fatalf "cannot unmarshal JSON: %v" .jsonSyntax], none⟩ ∧
    unmarshalOrExit (unmarshalCountResponse .invalid)
      = ⟨[.fatalf "cannot unmarshal JSON: %v" .jsonSyntax], none⟩ ∧
    (∀ text : String,
      unmarshalOrExit (unmarshalQueryResponse (.json (.obj [("aggregations", .str text)])))
        = ⟨[.fatalf "cannot unmarshal JSON: %v" (.unmarshalType .string .struct)], none⟩) ∧
    (∀ text : String,
      unmarshalOrExit (unmarshalCountResponse (.json (.obj [("aggregations", .str text)])))
        = ⟨[.fatalf "cannot unmarshal JSON: %v" (.unmarshalType .string .struct)], none⟩) := by
  refine ⟨?_, ?_, rfl, rfl, fun _ => rfl, fun _ => rfl⟩
  · intro hq
    obtain ⟨t, b, h1⟩ := queryResponse_envelope members queryResponse.zero hq
    have e1 : unmarshalQueryResponse (.json (.obj members)) = .ok ⟨t, b, ⟨⟨GoSlice.nil⟩⟩⟩ := by
      simp only [unmarshalQueryResponse, if_pos hdepth]
      exact h1
    refine ⟨⟨t, b, e1⟩, ?_⟩
    rw [e1]
    rfl
  · intro hc
    obtain ⟨t, b, h2⟩ := countResponse_envelope members CountResponse.zero hc
    have e2 : unmarshalCountResponse (.json (.obj members)) = .ok ⟨t, b, ⟨⟨0⟩⟩⟩ := by
      simp only [unmarshalCountResponse, if_pos hdepth]
      exact h2
    refine ⟨⟨t, b, e2⟩, ?_⟩
    rw [e2]
    rfl

/-- C3, instances: the envelope of a search response without `aggregations`
decoded as `queryResponse`, and a response whose `aggregations` holds the id "2"
but not the id "1" decoded as `CountResponse`. -/
theorem missing_aggregations_decodes_to_zero_value_witness :
    (∃ t b, unmarshalQueryResponse (.json (.obj exampleEnvelope))
        = .ok ⟨t, b, ⟨⟨GoSlice.nil⟩⟩⟩) ∧
    (∃ t b, unmarshalCountResponse
        (.json (.obj [("aggregations", .obj [("2", .obj [("buckets", .arr [])])]),
                      ("status", .num 200 "")]))
        = .ok ⟨t, b, ⟨⟨0⟩⟩⟩) :=
  ⟨((missing_aggregations_decodes_to_zero_value exampleEnvelope (by decide)).1
      (by decide)).1,
   ((missing_aggregations_decodes_to_zero_value
      [("aggregations", .obj [("2", .obj [("buckets", .arr [])])]), ("status", .num 200 "")]
      (by decide)).2.1 (by decide)).1⟩

/-! ## The run -/

theorem exampleEnv_collect : (collect exampleEnv).result = some exampleTabulated := by
  decide

set_option maxRecDepth 100000 in
theorem exampleEnv_main_trace : steps (main exampleEnv).trace =
    [ .newClient endpoint "analyst" "secret",
      .println "Querying database...", .searchDo searchIndex asnContent, .readAll,
      .println "Response received.", .closeBody,
      .println "Querying database...", .searchDo searchIndex countryContent, .readAll,
      .println "Response received.", .closeBody,
      .println "Querying database...", .searchDo searchIndex uniqueASNsContent, .readAll,
      .println "Response received.", .closeBody,
      .println "Querying database...", .searchDo searchIndex uniqueCountriesContent, .readAll,
      .println "Response received.", .closeBody,
      .println "",
      .createReport "analyst" "A3:B8" "A3:B6",
      .populateColumn (.strings ["AS-A", "AS-B", "AS-C", "AS-D", "AS-E"]) "A" 4 "By ASN"
        "AIDE-report.xlsx",
      .populateColumn (.ints [90, 70, 40, 40, 1]) "B" 4 "By ASN" "AIDE-report.xlsx",
      .populateColumn (.strings ["Iceland", "Chile", "Fiji"]) "A" 4 "By Country of Origin"
        "AIDE-report.xlsx",
      .populateColumn (.ints [120, 100, 21]) "B" 4 "By Country of Origin" "AIDE-report.xlsx",
      .openFile "AIDE-report.xlsx",
      .setCellValue "By ASN" "D3" "In the past 12 hours, AIDE observed 50 unique peer ASNs.",
      .setCellValue "By ASN" "D4" "Of those, 5 were present in attacker data.",
      .setCellValue "By Country of Origin" "D3"
        "In the past 12 hours, AIDE observed 20 unique peer countries.",
      .setCellValue "By Country of Origin" "D4"
        "Of those, 3 were the country of origin for attacks.",
      .save,
      .println "File saved." ] := by
  decide

theorem report_steps (env : Env) (t : Tabulated) (filename : String)
    (h : env.createReport = .ok filename) :
    steps (report env t).trace =
      [ .println "",
        .createReport env.user (tableRange t.asCounts.length) (tableRange t.countryCounts.length),
        .populateColumn (.strings t.asNames) "A" 4 "By ASN" filename,
        .populateColumn (.ints t.asCounts) "B" 4 "By ASN" filename,
        .populateColumn (.strings t.countryNames) "A" 4 "By Country of Origin" filename,
        .populateColumn (.ints t.countryCounts) "B" 4 "By Country of Origin" filename,
        .openFile filename ] ++
      (match env.openFile with
        | some _ => []
        | none =>
          [ .setCellValue "By ASN" "D3"
              (Sprintf "In the past 12 hours, AIDE observed %d unique peer ASNs."
                t.uniqueASNsCount),
            .setCellValue "By ASN" "D4"
              (Sprintf "Of those, %d were present in attacker data."
                (Int.ofNat t.asCounts.length)),
            .setCellValue "By Country of Origin" "D3"
              (Sprintf "In the past 12 hours, AIDE observed %d unique peer countries."
                t.uniqueCountriesCount),
            .setCellValue "By Country of Origin" "D4"
              (Sprintf "Of those, %d were the country of origin for attacks."
                (Int.ofNat t.countryCounts.length)),
            .save ] ++
          (match env.save with
            | some _ => []
            | none => [.println "File saved."])) := by
  obtain ⟨user, pw, nc, s1, s2, s3, s4, cr, p1, p2, p3, p4, opn, c1, c2, c3, c4, sv⟩ := env
  simp only at h
  subst h
  cases p1 <;> cases p2 <;> cases p3 <;> cases p4 <;> cases opn <;> cases sv <;>
    simp [report, populate, bind, Run.bind, emit, fatal, pure, steps]

theorem mem_of_mem_steps (e : Event) (tr : List Event) (h : e ∈ steps tr) : e ∈ tr := by
  induction tr with
  | nil => simp [steps] at h
  | cons x rest ih =>
    cases x <;> simp only [steps, List.mem_cons] at h ⊢ <;>
      first
        | exact Or.inr (ih h)
        | (rcases h with h | h
           · exact Or.inl h
           · exact Or.inr (ih h))

theorem collect_of_responses (env : Env) (st1 st2 st3 st4 : Nat)
    (asnBody countryBody uniqueASNsBody uniqueCountriesBody : Body)
    (asnResult countryResult : queryResponse) (asnCountResult countryCountResult : CountResponse)
    (hclient : env.newClient = none)
    (hs1 : env.asnSearch = .response st1 (.ok asnBody))
    (hd1 : unmarshalQueryResponse asnBody = .ok asnResult)
    (hs2 : env.countrySearch = .response st2 (.ok countryBody))
    (hd2 : unmarshalQueryResponse countryBody = .ok countryResult)
    (hs3 : env.uniqueASNsSearch = .response st3 (.ok uniqueASNsBody))
    (hd3 : unmarshalCountResponse uniqueASNsBody = .ok asnCountResult)
    (hs4 : env.uniqueCountriesSearch = .response st4 (.ok uniqueCountriesBody))
    (hd4 : unmarshalCountResponse uniqueCountriesBody = .ok countryCountResult) :
    (collect env).result = some
      ⟨asnResult.Aggregations.Filter.Buckets.elems.map Bucket.Key,
       asnResult.Aggregations.Filter.Buckets.elems.map Bucket.DocCount,
       countryResult.Aggregations.Filter.Buckets.elems.map Bucket.Key,
       countryResult.Aggregations.Filter.Buckets.elems.map Bucket.DocCount,
       asnCountResult.Aggregations.Field1.Value,
       countryCountResult.Aggregations.Field1.Value⟩ := by
  obtain ⟨user, pw, nc, s1, s2, s3, s4, cr, p1, p2, p3, p4, opn, c1, c2, c3, c4, sv⟩ := env
  simp only at hclient hs1 hs2 hs3 hs4
  subst hclient hs1 hs2 hs3 hs4
  simp [collect, search, searchDatabase, unmarshalOrExit, bind, Run.bind, emit, fatal, pure,
    hd1, hd2, hd3, hd4, tabulate_eq_map]

theorem main_trace_of_collect (env : Env) (t : Tabulated)
    (h : (collect env).result = some t) :
    (main env).trace = (collect env).trace ++ (report env t).trace := by
  simp [main, bind, Run.bind, h]

/-- C1: in every run in which the four queries are answered and decoded, the
loops in `main` turn the decoded ASN buckets `b_0..b_{B-1}` into a name sequence
and a count sequence of length `B` each, with `names[i] = b_i.Key` and
`counts[i] = b_i.DocCount` at every index and no entry beyond `B`, and likewise
for the country buckets; these are the sequences handed to `populateColumn`.
The loop does this for every bucket sequence, the empty one included: nothing is
reordered, dropped, merged or deduplicated. -/
theorem tabulate_preserves_length_and_order (env : Env) (st1 st2 st3 st4 : Nat)
    (asnBody countryBody uniqueASNsBody uniqueCountriesBody : Body)
    (asnResult countryResult : queryResponse) (asnCountResult countryCountResult : CountResponse)
    (hclient : env.newClient = none)
    (hs1 : env.asnSearch = .response st1 (.ok asnBody))
    (hd1 : unmarshalQueryResponse asnBody = .ok asnResult)
    (hs2 : env.countrySearch = .response st2 (.ok countryBody))
    (hd2 : unmarshalQueryResponse countryBody = .ok countryResult)
    (hs3 : env.uniqueASNsSearch = .response st3 (.ok uniqueASNsBody))
    (hd3 : unmarshalCountResponse uniqueASNsBody = .ok asnCountResult)
    (hs4 : env.uniqueCountriesSearch = .response st4 (.ok uniqueCountriesBody))
    (hd4 : unmarshalCountResponse uniqueCountriesBody = .ok countryCountResult) :
    (∃ t : Tabulated, (collect env).result = some t ∧
      t.asNames.length = asnResult.Aggregations.Filter.Buckets.elems.length ∧
      t.asCounts.length = asnResult.Aggregations.Filter.Buckets.elems.length ∧
      (∀ i : Nat, t.asNames[i]?
        = (asnResult.Aggregations.Filter.Buckets.elems[i]?).map Bucket.Key) ∧
      (∀ i : Nat, t.asCounts[i]?
        = (asnResult.Aggregations.Filter.Buckets.elems[i]?).map Bucket.DocCount) ∧
      t.countryNames.length = countryResult.Aggregations.Filter.Buckets.elems.length ∧
      t.countryCounts.length = countryResult.Aggregations.Filter.Buckets.elems.length ∧
      (∀ i : Nat, t.countryNames[i]?
        = (countryResult.Aggregations.Filter.Buckets.elems[i]?).map Bucket.Key) ∧
      (∀ i : Nat, t.countryCounts[i]?
        = (countryResult.Aggregations.Filter.Buckets.elems[i]?).map Bucket.DocCount) ∧
      (∀ filename : String, env.createReport = .ok filename →
        Event.populateColumn (.strings t.asNames) "A" 4 "By ASN" filename ∈ (main env).trace ∧
        Event.populateColumn (.ints t.asCounts) "B" 4 "By ASN" filename ∈ (main env).trace ∧
        Event.populateColumn (.strings t.countryNames) "A" 4 "By Country of Origin" filename
          ∈ (main env).trace ∧
        Event.populateColumn (.ints t.countryCounts) "B" 4 "By Country of Origin" filename
          ∈ (main env).trace)) ∧
    (∀ buckets : List Bucket,
      (tabulate buckets).1.length = buckets.length ∧
      (tabulate buckets).2.length = buckets.length ∧
      (∀ i : Nat, (tabulate buckets).1[i]? = (buckets[i]?).map Bucket.Key) ∧
      (∀ i : Nat, (tabulate buckets).2[i]? = (buckets[i]?).map Bucket.DocCount)) := by
  have hc := collect_of_responses env st1 st2 st3 st4 asnBody countryBody uniqueASNsBody
    uniqueCountriesBody asnResult countryResult asnCountResult countryCountResult
    hclient hs1 hd1 hs2 hd2 hs3 hd3 hs4 hd4
  generalize ht : (⟨asnResult.Aggregations.Filter.Buckets.elems.map Bucket.Key,
       asnResult.Aggregations.Filter.Buckets.elems.map Bucket.DocCount,
       countryResult.Aggregations.Filter.Buckets.elems.map Bucket.Key,
       countryResult.Aggregations.Filter.Buckets.elems.map Bucket.DocCount,
       asnCountResult.Aggregations.Field1.Value,
       countryCountResult.Aggregations.Field1.Value⟩ : Tabulated) = t at hc
  refine ⟨⟨t, hc, by simp [← ht], by simp [← ht], fun i => by simp [← ht, List.getElem?_map],
    fun i => by simp [← ht, List.getElem?_map], by simp [← ht], by simp [← ht],
    fun i => by simp [← ht, List.getElem?_map], fun i => by simp [← ht, List.getElem?_map],
    ?_⟩, ?_⟩
  · intro filename hf
    have hs := report_steps env t filename hf
    have hm : ∀ e : Event, e ∈ steps (report env t).trace → e ∈ (main env).trace := by
      intro e he
      rw [main_trace_of_collect env t hc]
      exact List.mem_append_right _ (mem_of_mem_steps e _ he)
    refine ⟨hm _ ?_, hm _ ?_, hm _ ?_, hm _ ?_⟩ <;> rw [hs] <;> simp
  · intro buckets
    rw [tabulate_eq_map]
    refine ⟨by simp, by simp, ?_, ?_⟩ <;> intro i <;> simp [List.getElem?_map]

set_option maxRecDepth 100000 in
/-- C1, an instance: the run with five ASN buckets and three country buckets. -/
theorem tabulate_preserves_length_and_order_witness :
    ∃ t : Tabulated, (collect exampleEnv).result = some t ∧
      t.asNames.length = 5 ∧ t.asCounts.length = 5 ∧
      t.countryNames.length = 3 ∧ t.countryCounts.length = 3 := by
  obtain ⟨t, ht, h1, h2, _, _, h3, h4, _⟩ :=
    (tabulate_preserves_length_and_order exampleEnv 200 200 200 200
      (.json (termsResponse exampleEnvelope [] [] [] exampleTermsExtras [] exampleASNBuckets))
      (.json (termsResponse exampleEnvelope [] [] [] exampleTermsExtras [] exampleCountryBuckets))
      (.json (countResponse exampleEnvelope [] 50))
      (.json (countResponse exampleEnvelope [] 20))
      ⟨12, false, ⟨⟨⟨exampleASNBuckets, []⟩⟩⟩⟩ ⟨12, false, ⟨⟨⟨exampleCountryBuckets, []⟩⟩⟩⟩
      ⟨12, false, ⟨⟨50⟩⟩⟩ ⟨12, false, ⟨⟨20⟩⟩⟩
      rfl rfl rfl rfl rfl rfl rfl rfl rfl).1
  exact ⟨t, ht, h1, h2, h3, h4⟩

theorem report_logged (env : Env) (t : Tabulated) :
    logged (report env t).trace = reportLog env := by
  obtain ⟨user, pw, nc, s1, s2, s3, s4, cr, p1, p2, p3, p4, opn, c1, c2, c3, c4, sv⟩ := env
  cases cr with
  | error e => simp [report, bind, Run.bind, emit, fatal, logged, reportLog]
  | ok name =>
    cases p1 <;> cases p2 <;> cases p3 <;> cases p4 <;> cases opn <;> cases sv <;>
      simp [report, populate, bind, Run.bind, emit, fatal, pure, logged, reportLog,
        populateMessage, firstFailure]

theorem report_result (env : Env) (t : Tabulated) :
    (report env t).result =
      (match env.createReport, env.openFile, env.save with
        | .ok _, none, none => some ()
        | _, _, _ => none) := by
  obtain ⟨user, pw, nc, s1, s2, s3, s4, cr, p1, p2, p3, p4, opn, c1, c2, c3, c4, sv⟩ := env
  cases cr with
  | error e => simp [report, bind, Run.bind, emit, fatal]
  | ok name =>
    cases p1 <;> cases p2 <;> cases p3 <;> cases p4 <;> cases opn <;> cases sv <;>
      simp [report, populate, bind, Run.bind, emit, fatal, pure]

theorem collect_logged (env : Env) :
    logged (collect env).trace = (collectFailure env).toList ∧
    (collect env).result.isSome = (collectFailure env).isNone := by
  obtain ⟨user, pw, nc, s1, s2, s3, s4, cr, p1, p2, p3, p4, opn, c1, c2, c3, c4, sv⟩ := env
  rcases nc with _ | e
  swap
  · simp [collect, bind, Run.bind, emit, fatal, logged, collectFailure, firstFailure]
  rcases s1 with e | ⟨st1, rd1⟩
  · simp [collect, search, searchDatabase, bind, Run.bind, emit, fatal, pure, logged,
      collectFailure, firstFailure, searchFailure]
  rcases rd1 with e | body1
  · simp [collect, search, searchDatabase, bind, Run.bind, emit, fatal, pure, logged,
      collectFailure, firstFailure, searchFailure]
  rcases hd1 : unmarshalQueryResponse body1 with e | r1
  · simp [collect, search, searchDatabase, unmarshalOrExit, bind, Run.bind, emit, fatal, pure,
      logged, collectFailure, firstFailure, searchFailure, decodeFailure, hd1]
  rcases s2 with e | ⟨st2, rd2⟩
  · simp [collect, search, searchDatabase, unmarshalOrExit, bind, Run.bind, emit, fatal, pure,
      logged, collectFailure, firstFailure, searchFailure, decodeFailure, hd1]
  rcases rd2 with e | body2
  · simp [collect, search, searchDatabase, unmarshalOrExit, bind, Run.bind, emit, fatal, pure,
      logged, collectFailure, firstFailure, searchFailure, decodeFailure, hd1]
  rcases hd2 : unmarshalQueryResponse body2 with e | r2
  · simp [collect, search, searchDatabase, unmarshalOrExit, bind, Run.bind, emit, fatal, pure,
      logged, collectFailure, firstFailure, searchFailure, decodeFailure, hd1, hd2]
  rcases s3 with e | ⟨st3, rd3⟩
  · simp [collect, search, searchDatabase, unmarshalOrExit, bind, Run.bind, emit, fatal, pure,
      logged, collectFailure, firstFailure, searchFailure, decodeFailure, hd1, hd2]
  rcases rd3 with e | body3
  · simp [collect, search, searchDatabase, unmarshalOrExit, bind, Run.bind, emit, fatal, pure,
      logged, collectFailure, firstFailure, searchFailure, decodeFailure, hd1, hd2]
  rcases hd3 : unmarshalCountResponse body3 with e | r3
  · simp [collect, search, searchDatabase, unmarshalOrExit, bind, Run.bind, emit, fatal, pure,
      logged, collectFailure, firstFailure, searchFailure, decodeFailure, hd1, hd2, hd3]
  rcases s4 with e | ⟨st4, rd4⟩
  · simp [collect, search, searchDatabase, unmarshalOrExit, bind, Run.bind, emit, fatal, pure,
      logged, collectFailure, firstFailure, searchFailure, decodeFailure, hd1, hd2, hd3]
  rcases rd4 with e | body4
  · simp [collect, search, searchDatabase, unmarshalOrExit, bind, Run.bind, emit, fatal, pure,
      logged, collectFailure, firstFailure, searchFailure, decodeFailure, hd1, hd2, hd3]
  rcases hd4 : unmarshalCountResponse body4 with e | r4
  · simp [collect, search, searchDatabase, unmarshalOrExit, bind, Run.bind, emit, fatal, pure,
      logged, collectFailure, firstFailure, searchFailure, decodeFailure, hd1, hd2, hd3, hd4]
  · simp [collect, search, searchDatabase, unmarshalOrExit, bind, Run.bind, emit, fatal, pure,
      logged, collectFailure, firstFailure, searchFailure, decodeFailure, hd1, hd2, hd3, hd4]

theorem logged_append (a b : List Event) : logged (a ++ b) = logged a ++ logged b := by
  induction a with
  | nil => rfl
  | cons e rest ih => cases e <;> simp [logged, ih]

theorem main_logged (env : Env) : logged (main env).trace = expectedLog env := by
  have hc := collect_logged env
  unfold main expectedLog
  simp only [bind, Run.bind]
  cases hr : (collect env).result with
  | none =>
    rw [hr] at hc
    cases hf : collectFailure env with
    | none => rw [hf] at hc; simp at hc
    | some m => rw [hf] at hc; simpa using hc.1
  | some t =>
    rw [hr] at hc
    cases hf : collectFailure env with
    | none =>
      rw [hf] at hc
      simp only [logged_append, hc.1, report_logged]
      rfl
    | some m => rw [hf] at hc; simp at hc

theorem report_cellWrites (env : Env) (t : Tabulated) (filename : String)
    (h1 : env.createReport = .ok filename) (h2 : env.openFile = none) :
    cellWrites "By ASN" (report env t).trace =
      [ .setCellValue "By ASN" "D3"
          (Sprintf "In the past 12 hours, AIDE observed %d unique peer ASNs." t.uniqueASNsCount),
        .setCellValue "By ASN" "D4"
          (Sprintf "Of those, %d were present in attacker data."
            (Int.ofNat t.asCounts.length)) ] := by
  obtain ⟨user, pw, nc, s1, s2, s3, s4, cr, p1, p2, p3, p4, opn, c1, c2, c3, c4, sv⟩ := env
  simp only at h1 h2
  subst h1 h2
  cases p1 <;> cases p2 <;> cases p3 <;> cases p4 <;> cases sv <;>
    simp [report, populate, bind, Run.bind, emit, fatal, pure, cellWrites]

theorem Sprintf_uniqueASNs (u : Int) :
    Sprintf "In the past 12 hours, AIDE observed %d unique peer ASNs." u
      = "In the past 12 hours, AIDE observed " ++ toString u ++ " unique peer ASNs." := by
  apply String.ext
  simp [Sprintf, sprintfChars]

theorem Sprintf_asnAttacks (n : Int) :
    Sprintf "Of those, %d were present in attacker data." n
      = "Of those, " ++ toString n ++ " were present in attacker data." := by
  apply String.ext
  simp [Sprintf, sprintfChars]

/-- C6: in every run that reaches the summary cells, with unique count `u` and `n`
tabulated ASN buckets, the strings written to cells D3 and D4 of sheet "By ASN" are
exactly "In the past 12 hours, AIDE observed <u> unique peer ASNs." and "Of those,
<n> were present in attacker data." with `u` and `n` in decimal, and these are the
only writes to that sheet; `u = 42`, `n = 5` give the two sentences with 42 and 5. -/
theorem summary_sentences_asn (env : Env) (t : Tabulated) (filename : String)
    (h1 : env.createReport = .ok filename) (h2 : env.openFile = none) :
    cellWrites "By ASN" (report env t).trace =
      [ .setCellValue "By ASN" "D3"
          ("In the past 12 hours, AIDE observed " ++ toString t.uniqueASNsCount
            ++ " unique peer ASNs."),
        .setCellValue "By ASN" "D4"
          ("Of those, " ++ toString t.asCounts.length ++ " were present in attacker data.") ] ∧
    Sprintf "In the past 12 hours, AIDE observed %d unique peer ASNs." 42
      = "In the past 12 hours, AIDE observed 42 unique peer ASNs." ∧
    Sprintf "Of those, %d were present in attacker data." (Int.ofNat 5)
      = "Of those, 5 were present in attacker data." := by
  refine ⟨?_, by decide, by decide⟩
  rw [report_cellWrites env t filename h1 h2, Sprintf_uniqueASNs, Sprintf_asnAttacks]
  rfl

/-- C6, an instance: the run with 5 ASN buckets and the unique count 50. -/
theorem summary_sentences_asn_witness :
    cellWrites "By ASN" (report exampleEnv exampleTabulated).trace =
      [ .setCellValue "By ASN" "D3"
          ("In the past 12 hours, AIDE observed " ++ toString (50 : Int)
            ++ " unique peer ASNs."),
        .setCellValue "By ASN" "D4"
          ("Of those, " ++ toString 5 ++ " were present in attacker data.") ] :=
  (summary_sentences_asn exampleEnv exampleTabulated "AIDE-report.xlsx" rfl rfl).1

/-- C7 (amended): once `createReport` has succeeded, for every combination of
results of the four `populateColumn` calls, all four calls are made in the fixed
order (ASN names in column A and ASN counts in column B of "By ASN", country names
in column A and country counts in column B of "By Country of Origin", each from
row 4) and the run goes on to reopen the report file. If reopening succeeds, the
four summary cells are written and the file is saved; if it fails, the run ends
there. No `populateColumn` result changes the calls that are made or the end of
the run. -/
theorem populate_errors_do_not_stop_the_run (env : Env) (t : Tabulated) (filename : String)
    (h : env.createReport = .ok filename) :
    steps (report env t).trace =
      [ .println "",
        .createReport env.user (tableRange t.asCounts.length) (tableRange t.countryCounts.length),
        .populateColumn (.strings t.asNames) "A" 4 "By ASN" filename,
        .populateColumn (.ints t.asCounts) "B" 4 "By ASN" filename,
        .populateColumn (.strings t.countryNames) "A" 4 "By Country of Origin" filename,
        .populateColumn (.ints t.countryCounts) "B" 4 "By Country of Origin" filename,
        .openFile filename ] ++
      (match env.openFile with
        | some _ => []
        | none =>
          [ .setCellValue "By ASN" "D3"
              (Sprintf "In the past 12 hours, AIDE observed %d unique peer ASNs."
                t.uniqueASNsCount),
            .setCellValue "By ASN" "D4"
              (Sprintf "Of those, %d were present in attacker data."
                (Int.ofNat t.asCounts.length)),
            .setCellValue "By Country of Origin" "D3"
              (Sprintf "In the past 12 hours, AIDE observed %d unique peer countries."
                t.uniqueCountriesCount),
            .setCellValue "By Country of Origin" "D4"
              (Sprintf "Of those, %d were the country of origin for attacks."
                (Int.ofNat t.countryCounts.length)),
            .save ] ++
          (match env.save with
            | some _ => []
            | none => [.println "File saved."])) ∧
    (report env t).result =
      (match env.openFile, env.save with
        | none, none => some ()
        | _, _ => none) := by
  refine ⟨report_steps env t filename h, ?_⟩
  rw [report_result, h]
  cases env.openFile <;> cases env.save <;> rfl

set_option maxRecDepth 100000 in
/-- C7, an instance: all four column populations fail, and the run still makes
the four calls, reopens the file, writes the summary cells and saves. -/
theorem populate_errors_do_not_stop_the_run_witness :
    steps (report populateFailsEnv exampleTabulated).trace =
      [ .println "",
        .createReport "analyst" "A3:B8" "A3:B6",
        .populateColumn (.strings ["AS-A", "AS-B", "AS-C", "AS-D", "AS-E"]) "A" 4 "By ASN"
          "AIDE-report.xlsx",
        .populateColumn (.ints [90, 70, 40, 40, 1]) "B" 4 "By ASN" "AIDE-report.xlsx",
        .populateColumn (.strings ["Iceland", "Chile", "Fiji"]) "A" 4 "By Country of Origin"
          "AIDE-report.xlsx",
        .populateColumn (.ints [120, 100, 21]) "B" 4 "By Country of Origin" "AIDE-report.xlsx",
        .openFile "AIDE-report.xlsx",
        .setCellValue "By ASN" "D3" "In the past 12 hours, AIDE observed 50 unique peer ASNs.",
        .setCellValue "By ASN" "D4" "Of those, 5 were present in attacker data.",
        .setCellValue "By Country of Origin" "D3"
          "In the past 12 hours, AIDE observed 20 unique peer countries.",
        .setCellValue "By Country of Origin" "D4"
          "Of those, 3 were the country of origin for attacks.",
        .save,
        .println "File saved." ] ∧
    (report populateFailsEnv exampleTabulated).result = some () := by
  have h := populate_errors_do_not_stop_the_run populateFailsEnv exampleTabulated
    "AIDE-report.xlsx" rfl
  refine ⟨?_, h.2⟩
  rw [h.1]
  decide

set_option maxRecDepth 100000 in
/-- C7 as stated fails: with the report created and all four columns populated,
a failure to reopen the file ends the run before any summary cell is written and
before the save. -/
theorem populate_then_reopen_fails_counterexample :
    reopenFailsEnv.createReport = .ok "AIDE-report.xlsx" ∧
    (main reopenFailsEnv).result = none ∧
    cellWrites "By ASN" (main reopenFailsEnv).trace = [] ∧
    cellWrites "By Country of Origin" (main reopenFailsEnv).trace = [] ∧
    Event.save ∉ (main reopenFailsEnv).trace ∧
    logged (main reopenFailsEnv).trace
      = [("failed to read excel file: %v", .external "open AIDE-report.xlsx: no such file")] := by
  refine ⟨rfl, by decide, by decide, by decide, by decide, by decide⟩

/-! ## The query catalog -/

set_option maxRecDepth 1000000 in
theorem query_texts :
    asnQuery.render = asnContent ∧ countryQuery.render = countryContent ∧
    uniqueASNsQuery.render = uniqueASNsContent ∧
    uniqueCountriesQuery.render = uniqueCountriesContent := by
  refine ⟨by decide, by decide, by decide, by decide⟩

set_option maxRecDepth 1000000 in
/-- C10 (amended): each of the four query bodies is the JSON text of a search
whose `query` is a `bool` query with nothing under `should` and `must_not` and
with the clause that restricts `@timestamp` to the range from `now-12h` to `now`
under `must` (ASN) or `filter` (the other three), so each is restricted to that
window. The two terms queries carry, under `must`, the existence predicate over
`loggedin`, `credentials`, `commands`, `unknownCommands`, `urls` and `hashes`,
and their terms aggregations have the sizes 5000 (ASN) and 2000 (country). The
two cardinality queries have an empty `must` and `match_all` beside the window
under `filter`: they carry no existence predicate and count over all documents
of the window. -/
theorem query_catalog :
    (asnQuery.render = asnContent ∧ countryQuery.render = countryContent ∧
      uniqueASNsQuery.render = uniqueASNsContent ∧
      uniqueCountriesQuery.render = uniqueCountriesContent) ∧
    JSON.path ["query", "bool"] asnQuery = some (.obj
      [("must", .arr [attackIndicators, timeWindow]), ("filter", .arr []),
       ("should", .arr []), ("must_not", .arr [])]) ∧
    JSON.path ["query", "bool"] countryQuery = some (.obj
      [("must", .arr [attackIndicators]), ("filter", .arr [timeWindow]),
       ("should", .arr []), ("must_not", .arr [])]) ∧
    JSON.path ["query", "bool"] uniqueASNsQuery = some (.obj
      [("must", .arr []), ("filter", .arr [matchAll, timeWindow]),
       ("should", .arr []), ("must_not", .arr [])]) ∧
    JSON.path ["query", "bool"] uniqueCountriesQuery = some (.obj
      [("must", .arr []), ("filter", .arr [matchAll, timeWindow]),
       ("should", .arr []), ("must_not", .arr [])]) ∧
    JSON.path ["range", "@timestamp"] timeWindow = some (.obj
      [("gte", .str "now-12h"), ("lte", .str "now"),
       ("format", .str "strict_date_optional_time")]) ∧
    JSON.path ["query_string", "query"] attackIndicators = some (.str attackIndicatorQuery) ∧
    attackIndicatorQuery =
      "_exists_:loggedin OR _exists_:credentials OR _exists_:commands OR _exists_:unknownCommands OR _exists_:urls OR _exists_:hashes" ∧
    matchAll.render = "\x7b\"match_all\":\x7b\x7d\x7d" ∧
    timeWindow.render = timeWindowClause ∧
    attackIndicators.render = attackIndicatorClause ∧
    JSON.path ["aggs", "2", "terms"] asnQuery = some (.obj
      [("field", .str "geoip.as_org.keyword"), ("order", .obj [("_count", .str "desc")]),
       ("size", .num 5000 "")]) ∧
    JSON.path ["aggs", "2", "terms"] countryQuery = some (.obj
      [("field", .str "geoip.country_name.keyword"), ("order", .obj [("_count", .str "desc")]),
       ("size", .num 2000 "")]) ∧
    JSON.path ["aggs", "1", "cardinality"] uniqueASNsQuery = some (.obj
      [("field", .str "geoip.as_org.keyword")]) ∧
    JSON.path ["aggs", "1", "cardinality"] uniqueCountriesQuery = some (.obj
      [("field", .str "geoip.country_name.keyword")]) ∧
    containsText uniqueASNsContent "_exists_" = false ∧
    containsText uniqueCountriesContent "_exists_" = false := by
  refine ⟨query_texts, rfl, rfl, rfl, rfl, rfl, rfl, by decide, by decide, by decide,
    by decide, rfl, rfl, rfl, rfl, by decide, by decide⟩

set_option maxRecDepth 1000000 in
/-- C10 as stated fails: the two cardinality query bodies hold no `_exists_`
predicate and none of the six attack-indicator field names; their `must` is
empty and their `filter` holds `match_all` and the window only. -/
theorem query_catalog_counterexample :
    containsText uniqueASNsContent attackIndicatorClause = false ∧
    containsText uniqueCountriesContent attackIndicatorClause = false ∧
    containsText uniqueASNsContent "_exists_" = false ∧
    containsText uniqueCountriesContent "_exists_" = false ∧
    attackIndicatorFields.all (fun f => !containsText uniqueASNsContent f) = true ∧
    attackIndicatorFields.all (fun f => !containsText uniqueCountriesContent f) = true ∧
    uniqueASNsQuery.render = uniqueASNsContent ∧
    JSON.path ["query", "bool", "must"] uniqueASNsQuery = some (.arr []) ∧
    uniqueCountriesQuery.render = uniqueCountriesContent ∧
    JSON.path ["query", "bool", "must"] uniqueCountriesQuery = some (.arr []) := by
  refine ⟨by decide, by decide, by decide, by decide, by decide, by decide, by decide, rfl,
    by decide, rfl⟩

/-! ## Failures of a run -/

/-- C8 (amended): a transport failure and a failure to read the response body end
the run inside `searchDatabase`, each with its own message. The status of the
backend's answer is not looked at: for every status, a body that could be read is
handed back to the caller with a nil error, and `main` passes it to the decoder. -/
theorem searchDatabase_outcomes :
    (∀ (content : String) (err : GoError),
      searchDatabase content (.transportError err) =
        ⟨[ .println "Querying database...", .searchDo searchIndex content,
           .fatalf "failed to search document: %v" err ], none⟩) ∧
    (∀ (content : String) (status : Nat) (err : GoError),
      searchDatabase content (.response status (.error err)) =
        ⟨[ .println "Querying database...", .searchDo searchIndex content, .readAll,
           .fatalf "failed to read response body: %v" err ], none⟩) ∧
    (∀ (content : String) (status : Nat) (body : Body),
      searchDatabase content (.response status (.ok body)) =
        ⟨[ .println "Querying database...", .searchDo searchIndex content, .readAll,
           .println "Response received.", .closeBody ], some (body, none)⟩) ∧
    (∀ (content : String) (status : Nat) (body : Body),
      (search content (.response status (.ok body))).result = some body) := by
  refine ⟨?_, ?_, ?_, ?_⟩ <;> intros <;>
    simp [search, searchDatabase, bind, Run.bind, emit, fatal, pure]

set_option maxRecDepth 100000 in
/-- C8 as stated fails: when the backend answers every query with status 503 and
an error body, `searchDatabase` hands the error body back, the decoder accepts it
with zero values, and the run saves a report with two empty tables. -/
theorem backend_error_counterexample :
    (searchDatabase asnContent (.response 503 (.ok (.json backendErrorBody)))).result.map
        (fun r => r.2) = some none ∧
    (searchDatabase asnContent (.response 503 (.ok (.json backendErrorBody)))).result.map
        (fun r => unmarshalQueryResponse r.1) = some (.ok queryResponse.zero) ∧
    (main backendErrorEnv).result = some () ∧
    logged (main backendErrorEnv).trace = [] ∧
    Event.createReport "analyst" "A3:B3" "A3:B3" ∈ (main backendErrorEnv).trace ∧
    Event.save ∈ (main backendErrorEnv).trace := by
  refine ⟨by decide, rfl, by decide, by decide, by decide, by decide⟩

set_option maxRecDepth 100000 in
/-- C3 as stated fails: a body that is well-formed JSON without `aggregations`
decodes without error into the zero values (nil bucket list, count 0), and a run
in which all four bodies are of that kind saves a report with two empty tables
and the counts 0. -/
theorem missing_aggregations_counterexample :
    unmarshalQueryResponse (.json (.obj exampleEnvelope)) = .ok ⟨12, false, ⟨⟨GoSlice.nil⟩⟩⟩ ∧
    unmarshalCountResponse (.json (.obj exampleEnvelope)) = .ok ⟨12, false, ⟨⟨0⟩⟩⟩ ∧
    unmarshalQueryResponse (.json (.obj [("aggregations", .obj [])])) = .ok queryResponse.zero ∧
    unmarshalCountResponse (.json (.obj [("aggregations", .obj [])])) = .ok CountResponse.zero ∧
    (main missingAggregationsEnv).result = some () ∧
    logged (main missingAggregationsEnv).trace = [] ∧
    Event.createReport "analyst" "A3:B3" "A3:B3" ∈ (main missingAggregationsEnv).trace ∧
    Event.setCellValue "By ASN" "D3" "In the past 12 hours, AIDE observed 0 unique peer ASNs."
      ∈ (main missingAggregationsEnv).trace := by
  refine ⟨rfl, rfl, rfl, rfl, by decide, by decide, by decide, by decide⟩

theorem firstFailure_mem (l : List (Option (String × GoError))) (m : String × GoError)
    (h : firstFailure l = some m) : some m ∈ l := by
  induction l with
  | nil => simp [firstFailure] at h
  | cons x rest ih =>
    cases x with
    | none =>
      simp only [firstFailure] at h
      exact List.mem_cons_of_mem _ (ih h)
    | some y =>
      simp only [firstFailure, Option.some.injEq] at h
      subst h
      exact List.mem_cons_self _ _

theorem searchFailure_format (o : SearchOutcome) (m : String × GoError)
    (h : searchFailure o = some m) : m.1 ∈ logFormats := by
  cases o with
  | transportError e =>
    simp only [searchFailure, Option.some.injEq] at h
    subst h
    simp [logFormats]
  | response st rd =>
    cases rd with
    | error e =>
      simp only [searchFailure, Option.some.injEq] at h
      subst h
      simp [logFormats]
    | ok body => simp [searchFailure] at h

theorem decodeFailure_format {α : Type} (decode : Body → Except GoError α) (o : SearchOutcome)
    (m : String × GoError) (h : decodeFailure decode o = some m) : m.1 ∈ logFormats := by
  cases o with
  | transportError e => simp [decodeFailure] at h
  | response st rd =>
    cases rd with
    | error e => simp [decodeFailure] at h
    | ok body =>
      simp only [decodeFailure] at h
      cases hd : decode body with
      | error e =>
        rw [hd] at h
        simp only [Option.some.injEq] at h
        subst h
        simp [logFormats]
      | ok r =>
        rw [hd] at h
        simp at h

theorem collectFailure_format (env : Env) (m : String × GoError)
    (h : collectFailure env = some m) : m.1 ∈ logFormats := by
  have hm := firstFailure_mem _ _ h
  simp only [List.mem_cons, List.mem_singleton, List.not_mem_nil, or_false] at hm
  rcases hm with h0 | h1 | h2 | h3 | h4 | h5 | h6 | h7 | h8
  · cases hn : env.newClient with
    | none => rw [hn] at h0; simp at h0
    | some e =>
      rw [hn] at h0
      simp only [Option.map_some', Option.some.injEq] at h0
      subst h0
      simp [logFormats]
  · exact searchFailure_format _ _ h1.symm
  · exact decodeFailure_format _ _ _ h2.symm
  · exact searchFailure_format _ _ h3.symm
  · exact decodeFailure_format _ _ _ h4.symm
  · exact searchFailure_format _ _ h5.symm
  · exact decodeFailure_format _ _ _ h6.symm
  · exact searchFailure_format _ _ h7.symm
  · exact decodeFailure_format _ _ _ h8.symm

theorem reportLog_format (env : Env) (m : String × GoError) (h : m ∈ reportLog env) :
    m.1 ∈ logFormats := by
  obtain ⟨user, pw, nc, s1, s2, s3, s4, cr, p1, p2, p3, p4, opn, c1, c2, c3, c4, sv⟩ := env
  cases cr with
  | error e =>
    simp only [reportLog, List.mem_singleton] at h
    subst h
    simp [logFormats]
  | ok name =>
    cases p1 <;> cases p2 <;> cases p3 <;> cases p4 <;> cases opn <;> cases sv <;>
      simp [reportLog, populateMessage, firstFailure] at h <;>
      (try rcases h with h | h | h | h | h | h) <;> (try subst h) <;> simp [logFormats]

theorem main_result_none_logged (env : Env) (h : (main env).result = none) :
    expectedLog env ≠ [] := by
  have hc := collect_logged env
  unfold expectedLog
  cases hf : collectFailure env with
  | some m => simp
  | none =>
    rw [hf] at hc
    simp only [Option.isNone_none, Option.isSome_iff_exists] at hc
    obtain ⟨t, ht⟩ := hc.2
    have hr : (main env).result = (report env t).result := by
      simp [main, bind, Run.bind, ht]
    rw [hr, report_result] at h
    obtain ⟨user, pw, nc, s1, s2, s3, s4, cr, p1, p2, p3, p4, opn, c1, c2, c3, c4, sv⟩ := env
    cases cr with
    | error e => simp [reportLog]
    | ok name =>
      cases opn with
      | some e => simp [reportLog, firstFailure]
      | none =>
        cases sv with
        | some e => simp [reportLog, firstFailure]
        | none => simp at h

/-- C9 (amended): the log of every run is exactly `expectedLog`: the error of
client creation, of a search (transport or body read), of a decode, of report
creation, of reopening the file and of the save each end the run with one
message, and each failed column population adds one message. The format of a
message names the kind of operation, one of ten pairwise different formats; the
four searches share their formats with each other and with client creation, and
the four decodes share one format. The results of the four summary-cell writes
are discarded: they change neither the log nor anything else in the run. A run
that ends early always leaves a message. -/
theorem run_log (env : Env) :
    logged (main env).trace = expectedLog env ∧
    (∀ m ∈ expectedLog env, m.1 ∈ logFormats) ∧
    logFormats.Nodup ∧
    (∀ c1 c2 c3 c4 : Option GoError,
      main { env with setUniqueASNs := c1, setASNAttacks := c2,
                      setUniqueCountries := c3, setCountryAttacks := c4 } = main env) ∧
    ((main env).result = none → logged (main env).trace ≠ []) := by
  refine ⟨main_logged env, ?_, by decide, ?_, ?_⟩
  · intro m hm
    unfold expectedLog at hm
    cases hf : collectFailure env with
    | some x =>
      rw [hf] at hm
      simp only [List.mem_singleton] at hm
      subst hm
      exact collectFailure_format env _ hf
    | none =>
      rw [hf] at hm
      exact reportLog_format env m hm
  · intro c1 c2 c3 c4
    rfl
  · intro h
    rw [main_logged]
    exact main_result_none_logged env h

set_option maxRecDepth 100000 in
/-- C9, an instance: the run in which reopening the report file fails ends early
and leaves a message. -/
theorem run_log_witness : logged (main reopenFailsEnv).trace ≠ [] :=
  (run_log reopenFailsEnv).2.2.2.2 (by decide)

set_option maxRecDepth 100000 in
/-- C9 as stated fails twice. The errors of all four summary-cell writes leave no
message: the run is event for event the run without them. And two different
failing operations, the decode of the ASN answer and the decode of the country
answer, leave the same message. -/
theorem swallowed_and_shared_messages_counterexample :
    cellWriteFailsEnv.setUniqueASNs = some (.external "sheet By ASN does not exist") ∧
    logged (main cellWriteFailsEnv).trace = [] ∧
    (main cellWriteFailsEnv).trace = (main exampleEnv).trace ∧
    logged (main asnDecodeFailsEnv).trace = [("cannot unmarshal JSON: %v", .jsonSyntax)] ∧
    logged (main countryDecodeFailsEnv).trace = [("cannot unmarshal JSON: %v", .jsonSyntax)] := by
  refine ⟨rfl, by decide, by decide, by decide, by decide⟩

end AIDEReport
